import Mathlib

/-
Verification development for the Hospital-chatbot repository.

The Python modules are shallowly embedded as Lean definitions:
  - src/chatbot/medical_knowledge.py : emergency keyword vocabulary and scanner
  - src/chatbot/states.py            : transition table and validity predicate
  - src/chatbot/llm_engine.py        : response validator, leakage guard, fallback
  - src/chatbot/conversation_manager.py : per-turn orchestration pipeline
  - src/database/mongo_client.py     : persistence, modelled as an oracle that
    supplies the result of one save_appointment call (Option String, none for
    failure), since the storage engine itself is an external collaborator.

Python strings are modelled through their character lists (String.data); the
helper functions pyStrip, pyLower, pySliceTo, pyLast, pyTitle mirror the
Python methods strip, lower, slicing, [-n:] and title on ASCII data.
Python runtime faults (AttributeError, TypeError) are modelled by
Except.error; a normal return is Except.ok.
-/

set_option maxRecDepth 8000
set_option maxHeartbeats 2000000

/-! ## Python-style string primitives (character-list based) -/

/-- Whitespace set used by Python str.strip. -/
def isSpaceChar (c : Char) : Bool :=
  c == ' ' || c == '\t' || c == '\n' || c == '\r' || c == '\x0b' || c == '\x0c'

/-- pyStrip models Python str.strip(): drop whitespace at both ends. -/
def pyStrip (s : String) : String :=
  ⟨((s.data.dropWhile isSpaceChar).reverse.dropWhile isSpaceChar).reverse⟩

/-- pyLower models Python str.lower() on ASCII data. -/
def pyLower (s : String) : String :=
  ⟨s.data.map Char.toLower⟩

/-- Number of characters, as Python len(). -/
def pyLen (s : String) : Nat := s.data.length

/-- pySliceTo models Python s[:n]. -/
def pySliceTo (s : String) (n : Nat) : String := ⟨s.data.take n⟩

/-- pyLast models Python s[-n:] (whole string when shorter than n). -/
def pyLast (s : String) (n : Nat) : String := ⟨s.data.drop (s.data.length - n)⟩

/-- Does the first list start with the second list (used for startswith and
substring containment)? -/
def leadEq : List Char → List Char → Bool
  | [], _ => true
  | _ :: _, [] => false
  | a :: as, b :: bs => a == b && leadEq as bs

/-- Substring search: does the needle occur inside the haystack list? -/
def hasSub : List Char → List Char → Bool
  | needle, [] => leadEq needle []
  | needle, c :: t => leadEq needle (c :: t) || hasSub needle t

/-- Python substring containment: needle in hay. -/
def strContains (hay needle : String) : Bool := hasSub needle.data hay.data

/-- Python str.startswith. -/
def pyStartsWith (s pre : String) : Bool := leadEq pre.data s.data

/-- One step of Python str.title(): capitalize letters that follow a
non-letter, lowercase the rest.  The Bool records whether the previous
character was alphabetic. -/
def titleAux : List Char → Bool → List Char
  | [], _ => []
  | c :: t, prevAlpha =>
    if c.isAlpha then
      (if prevAlpha then c.toLower else c.toUpper) :: titleAux t true
    else c :: titleAux t false

/-- pyTitle models Python str.title() on ASCII data. -/
def pyTitle (s : String) : String := ⟨titleAux s.data false⟩

/-- An apostrophe character, used to build string constants of the source
verbatim. -/
def apos : String := ⟨[Char.ofNat 39]⟩

/-! ## JSON value model

Parsed JSON payloads (the output of json.loads) are modelled by JValue.
Objects are association lists with Python dict lookup discipline (first
binding wins for reads; insertion overwrites an existing key). -/

inductive JValue where
  | null : JValue
  | bool : Bool → JValue
  | num : Int → JValue
  | fnum : String → JValue
  | str : String → JValue
  | arr : List JValue → JValue
  | obj : List (String × JValue) → JValue

/-- Zero test for a float token: any nonzero mantissa digit. -/
def fnumTruthy (tok : String) : Bool :=
  (tok.data.takeWhile (fun c => !(c == 'e') && !(c == 'E'))).any
    (fun c => c.isDigit && !(c == '0'))

/-- Python truthiness of a JSON value. -/
def JValue.truthy : JValue → Bool
  | .null => false
  | .bool b => b
  | .num n => !(n == 0)
  | .fnum tok => fnumTruthy tok
  | .str s => !(s == "")
  | .arr xs => !(xs.isEmpty)
  | .obj fs => !(fs.isEmpty)

/-- Python equality of a JSON value against a string literal. -/
def JValue.eqStr : JValue → String → Bool
  | .str s, t => s == t
  | _, _ => false

/-- The carried string of a string value (empty otherwise). -/
def JValue.getStr : JValue → String
  | .str s => s
  | _ => ""

/-- Python dict lookup on an association list (first binding wins). -/
def dictGet : List (String × JValue) → String → Option JValue
  | [], _ => none
  | (k, v) :: t, key => if k == key then some v else dictGet t key

/-- Python dict assignment: overwrite an existing binding, else append. -/
def dictSet (fs : List (String × JValue)) (key : String) (v : JValue) :
    List (String × JValue) :=
  if (dictGet fs key).isSome then
    fs.map (fun p => if p.1 == key then (p.1, v) else p)
  else fs ++ [(key, v)]

mutual
/-- Python repr() of a JSON value (ASCII, escaping omitted: only used to
render values inside user-facing formatted text). -/
def pyRepr : JValue → String
  | .null => "None"
  | .bool b => if b then "True" else "False"
  | .num n => toString n
  | .fnum tok => tok
  | .str s => apos ++ s ++ apos
  | .arr xs => "[" ++ pyReprItems xs ++ "]"
  | .obj fs => "\x7b" ++ pyReprFields fs ++ "\x7d"

def pyReprItems : List JValue → String
  | [] => ""
  | [x] => pyRepr x
  | x :: y :: t => pyRepr x ++ ", " ++ pyReprItems (y :: t)

def pyReprFields : List (String × JValue) → String
  | [] => ""
  | [(k, v)] => apos ++ k ++ apos ++ ": " ++ pyRepr v
  | (k, v) :: p :: t =>
      apos ++ k ++ apos ++ ": " ++ pyRepr v ++ ", " ++ pyReprFields (p :: t)
end

/-- Python str() of a JSON value (strings render without quotes at top
level, everything else as repr). -/
def pyStr : JValue → String
  | .str s => s
  | v => pyRepr v

/-! ## JSON parser (model of json.loads)

A fueled recursive-descent parser for the JSON grammar.  Simplifications
relative to CPython json (documented, harmless for the claims because the
model uses this single parser consistently wherever the source calls
json.loads): no surrogate-pair combination for escaped code units, leading
zeros in numbers accepted. -/

/-- JSON insignificant whitespace. -/
def jsonWS (c : Char) : Bool :=
  c == ' ' || c == '\t' || c == '\n' || c == '\r'

def skipWS (cs : List Char) : List Char := cs.dropWhile jsonWS

def hexVal (c : Char) : Option Nat :=
  if c.isDigit then some (c.toNat - 48)
  else if 'a' ≤ c && c ≤ 'f' then some (c.toNat - 87)
  else if 'A' ≤ c && c ≤ 'F' then some (c.toNat - 55)
  else none

/-- Body of a JSON string after the opening quote; returns the decoded
string and the rest of the input. -/
def parseStringBody : Nat → List Char → List Char → Option (String × List Char)
  | 0, _, _ => none
  | _ + 1, acc, [] => (fun _ => none) acc
  | fuel + 1, acc, c :: rest =>
    if c == '"' then some (⟨acc.reverse⟩, rest)
    else if c == '\\' then
      match rest with
      | [] => none
      | e :: rest1 =>
        if e == '"' then parseStringBody fuel ('"' :: acc) rest1
        else if e == '\\' then parseStringBody fuel ('\\' :: acc) rest1
        else if e == '/' then parseStringBody fuel ('/' :: acc) rest1
        else if e == 'b' then parseStringBody fuel ('\x08' :: acc) rest1
        else if e == 'f' then parseStringBody fuel ('\x0c' :: acc) rest1
        else if e == 'n' then parseStringBody fuel ('\n' :: acc) rest1
        else if e == 'r' then parseStringBody fuel ('\r' :: acc) rest1
        else if e == 't' then parseStringBody fuel ('\t' :: acc) rest1
        else if e == 'u' then
          match rest1 with
          | a :: b :: c2 :: d :: rest2 =>
            match hexVal a, hexVal b, hexVal c2, hexVal d with
            | some ha, some hb, some hc, some hd =>
                parseStringBody fuel
                  (Char.ofNat (((ha * 16 + hb) * 16 + hc) * 16 + hd) :: acc) rest2
            | _, _, _, _ => none
          | _ => none
        else none
    else parseStringBody fuel (c :: acc) rest

def takeDigits (cs : List Char) : List Char × List Char :=
  (cs.takeWhile Char.isDigit, cs.dropWhile Char.isDigit)

/-- Optional fraction part of a JSON number. -/
def parseFrac : List Char → Option (List Char × List Char)
  | '.' :: t =>
    match takeDigits t with
    | ([], _) => none
    | (fs, r) => some ('.' :: fs, r)
  | cs => some ([], cs)

/-- Optional exponent part of a JSON number. -/
def parseExp : List Char → Option (List Char × List Char)
  | c :: t =>
    if c == 'e' || c == 'E' then
      match t with
      | s :: t1 =>
        if s == '+' || s == '-' then
          match takeDigits t1 with
          | ([], _) => none
          | (es, r) => some (c :: s :: es, r)
        else
          match takeDigits t with
          | ([], _) => none
          | (es, r) => some (c :: es, r)
      | [] => none
    else some ([], c :: t)
  | [] => some ([], [])

def intOfDigits (neg : Bool) (ds : List Char) : Int :=
  let n : Nat := ds.foldl (fun a c => a * 10 + (c.toNat - 48)) 0
  if neg then -(n : Int) else (n : Int)

/-- A JSON number token. -/
def parseNumber (cs : List Char) : Option (JValue × List Char) :=
  let (neg, cs1) := match cs with
    | '-' :: t => (true, t)
    | _ => (false, cs)
  match takeDigits cs1 with
  | ([], _) => none
  | (ds, r1) =>
    match parseFrac r1 with
    | none => none
    | some (fs, r2) =>
      match parseExp r2 with
      | none => none
      | some (es, r3) =>
        if fs.isEmpty && es.isEmpty then
          some (.num (intOfDigits neg ds), r3)
        else
          some (.fnum ⟨(if neg then ['-'] else []) ++ ds ++ fs ++ es⟩, r3)

/-- Insertion with Python dict semantics while building an object. -/
def objInsert (fs : List (String × JValue)) (k : String) (v : JValue) :
    List (String × JValue) := dictSet fs k v

mutual
/-- One JSON value, dispatched on the first significant character. -/
def parseValue : Nat → List Char → Option (JValue × List Char)
  | 0, _ => none
  | fuel + 1, cs =>
    match skipWS cs with
    | '\x7b' :: rest =>
      (match skipWS rest with
       | '\x7d' :: rest1 => some (.obj [], rest1)
       | _ => parseMembers fuel rest [])
    | '[' :: rest =>
      (match skipWS rest with
       | ']' :: rest1 => some (.arr [], rest1)
       | _ => parseItems fuel rest [])
    | '"' :: rest =>
      (match parseStringBody (rest.length + 1) [] rest with
       | some (s, r) => some (.str s, r)
       | none => none)
    | 't' :: 'r' :: 'u' :: 'e' :: rest => some (.bool true, rest)
    | 'f' :: 'a' :: 'l' :: 's' :: 'e' :: rest => some (.bool false, rest)
    | 'n' :: 'u' :: 'l' :: 'l' :: rest => some (.null, rest)
    | cs1 => parseNumber cs1

/-- Members of a JSON object after the opening brace (at least one). -/
def parseMembers : Nat → List Char → List (String × JValue) →
    Option (JValue × List Char)
  | 0, _, _ => none
  | fuel + 1, cs, acc =>
    match skipWS cs with
    | '"' :: rest =>
      (match parseStringBody (rest.length + 1) [] rest with
       | none => none
       | some (k, r1) =>
         match skipWS r1 with
         | ':' :: r2 =>
           (match parseValue fuel r2 with
            | none => none
            | some (v, r3) =>
              match skipWS r3 with
              | ',' :: r4 => parseMembers fuel r4 (objInsert acc k v)
              | '\x7d' :: r4 => some (.obj (objInsert acc k v), r4)
              | _ => none)
         | _ => none)
    | _ => none

/-- Items of a JSON array after the opening bracket (at least one). -/
def parseItems : Nat → List Char → List JValue → Option (JValue × List Char)
  | 0, _, _ => none
  | fuel + 1, cs, acc =>
    match parseValue fuel cs with
    | none => none
    | some (v, r) =>
      match skipWS r with
      | ',' :: r2 => parseItems fuel r2 (acc ++ [v])
      | ']' :: r2 => some (.arr (acc ++ [v]), r2)
      | _ => none
end

/-- Model of json.loads: parse one value and require only whitespace to
remain. -/
def jsonParse (s : String) : Option JValue :=
  match parseValue (s.data.length + 16) s.data with
  | some (v, rest) => if (skipWS rest).isEmpty then some v else none
  | none => none

/-- Does a text parse as a structured payload (a JSON object), after
stripping?  This is the formal reading of the guarantee that the structured
encoding never reaches the user. -/
def isPayload (s : String) : Bool :=
  match jsonParse (pyStrip s) with
  | some (.obj _) => true
  | _ => false

example : jsonParse "\x7b\"a\": 1, \"b\": [true, null]\x7d" =
    some (.obj [("a", .num 1), ("b", .arr [.bool true, .null])]) := by rfl

example : jsonParse "  \x7b \"a\" : \"x\" \x7d  " =
    some (.obj [("a", .str "x")]) := by rfl

example : jsonParse "\x7bbroken" = none := by rfl

example : isPayload "hello" = false := by rfl

example : isPayload " \x7b\"response\": \"hi\"\x7d " = true := by rfl

/-! ## src/chatbot/medical_knowledge.py -/

/-- EMERGENCY_KEYWORDS from medical_knowledge.py, category by category. -/
def EMERGENCY_KEYWORDS : List (String × List String) :=
  [("cardiac",
    ["heart attack", "cardiac arrest", "chest tightness", "chest pressure",
     "crushing chest pain"]),
   ("respiratory",
    ["can" ++ apos ++ "t breathe", "cannot breathe", "not breathing",
     "stopped breathing", "choking", "suffocating",
     "severe difficulty breathing"]),
   ("neurological",
    ["stroke", "face drooping", "sudden numbness", "sudden confusion",
     "sudden severe headache", "seizure", "convulsions", "unconscious",
     "unresponsive", "loss of consciousness", "passed out",
     "fainted and not waking"]),
   ("bleeding",
    ["severe bleeding", "uncontrollable bleeding",
     "won" ++ apos ++ "t stop bleeding", "hemorrhage", "coughing blood",
     "vomiting blood"]),
   ("trauma",
    ["severe burn", "major accident", "head injury", "spinal injury",
     "broken neck"]),
   ("toxicology",
    ["poisoning", "overdose", "swallowed poison", "drug overdose"]),
   ("allergic",
    ["anaphylaxis", "anaphylactic shock", "severe allergic reaction",
     "throat swelling", "tongue swelling"]),
   ("mental_health",
    ["suicidal", "want to kill myself", "ending my life", "self harm"])]

/-- Flattened keyword list, in category order (medical_knowledge.py). -/
def ALL_EMERGENCY_KEYWORDS : List String :=
  (EMERGENCY_KEYWORDS.map Prod.snd).flatten

/-- check_emergency_keywords from medical_knowledge.py: case-insensitive
substring scan of the fixed vocabulary, returning matches in order. -/
def check_emergency_keywords (text : String) : List String :=
  let tl := pyLower text
  ALL_EMERGENCY_KEYWORDS.filter (fun kw => strContains tl kw)

example : check_emergency_keywords "I have a Heart Attack" = ["heart attack"] := by rfl
example : check_emergency_keywords "hello" = [] := by rfl

/-! ## src/chatbot/states.py -/

/-- VALID_TRANSITIONS from states.py, as an association list keyed by the
nine state names. -/
def VALID_TRANSITIONS : List (String × List String) :=
  [("greeting", ["symptom_collection", "emergency"]),
   ("symptom_collection",
    ["symptom_collection", "severity_assessment", "emergency"]),
   ("severity_assessment",
    ["emergency", "department_recommendation", "symptom_collection"]),
   ("emergency", ["emergency", "greeting"]),
   ("department_recommendation",
    ["appointment_offer", "symptom_collection", "emergency"]),
   ("appointment_offer",
    ["collecting_details", "completed", "symptom_collection", "emergency"]),
   ("collecting_details",
    ["collecting_details", "booking_confirmation", "emergency"]),
   ("booking_confirmation",
    ["completed", "collecting_details", "emergency"]),
   ("completed", ["greeting", "symptom_collection"])]

/-- Lookup in a string-keyed association list. -/
def lookupStr : List (String × List String) → String → Option (List String)
  | [], _ => none
  | (k, v) :: t, key => if k == key then some v else lookupStr t key

/-- The set of legal destinations of a state; empty for an unrecognized
state (VALID_TRANSITIONS.get(current_state, set())). -/
def transitionsFor (s : String) : List String :=
  (lookupStr VALID_TRANSITIONS s).getD []

/-- is_valid_transition from states.py: emergency is always legal,
otherwise the table decides. -/
def is_valid_transition (current_state next_state : String) : Bool :=
  next_state == "emergency" || (transitionsFor current_state).contains next_state

/-- The nine enumerated state names. -/
def STATE_NAMES : List String :=
  ["greeting", "symptom_collection", "severity_assessment", "emergency",
   "department_recommendation", "appointment_offer", "collecting_details",
   "booking_confirmation", "completed"]

example : is_valid_transition "greeting" "symptom_collection" = true := by rfl
example : is_valid_transition "greeting" "completed" = false := by rfl
example : is_valid_transition "nonsense" "emergency" = true := by rfl

/-! ## src/chatbot/llm_engine.py : response validator and leakage guard -/

/-- The five field-name signatures of _looks_like_json. -/
def JSON_PATTERNS : List String :=
  ["\"response\":", "\"severity\":", "\"extracted_symptoms\":",
   "\"is_emergency\":", "\"suggested_next_state\":"]

/-- Number of signature patterns occurring in a text. -/
def countSigs (s : String) : Nat :=
  (JSON_PATTERNS.filter (fun p => strContains s p)).length

/-- _looks_like_json from llm_engine.py: a brace- or bracket-leading text
that fully parses, or a text containing at least two field-name
signatures. -/
def looks_like_json (text : String) : Bool :=
  let stripped := pyStrip text
  (if pyStartsWith stripped "\x7b" || pyStartsWith stripped "[" then
     (jsonParse stripped).isSome
   else false)
  || decide (2 ≤ countSigs stripped)

/-- Synthesized emergency notice of _validate_parsed_result. -/
def emergencyNoticeV : String :=
  "🚨 **This appears to be a medical emergency.** Please call **911** or **112** immediately for urgent care."

/-- Synthesized department recommendation of _validate_parsed_result. -/
def deptMsgV (symptomStr : String) (dept severity : JValue) : String :=
  "Based on " ++ symptomStr ++ ", I recommend visiting **" ++ pyStr dept ++
    "**. Assessed severity: **" ++
    (if severity.truthy then pyStr severity else "under review") ++
    "**. Would you like to book an appointment?"

/-- Generic clarification request (shared by _validate_parsed_result and
_sanitize_response). -/
def genericMsgV : String :=
  "Thank you for sharing. Could you tell me more about your symptoms so I can better assist you?"

/-- Fallback response text of _fallback_response. -/
def fallbackText : String :=
  "I apologize, but I" ++ apos ++
    "m experiencing a technical issue right now. If you" ++ apos ++
    "re experiencing a medical emergency, please call **911** or **112** immediately.\n\nPlease try again in a moment."

/-- The defaults installed for missing keys by _validate_parsed_result. -/
def DEFAULTS : List (String × JValue) :=
  [("extracted_symptoms", .arr []), ("severity", .null),
   ("is_emergency", .bool false), ("recommended_department", .null),
   ("intent", .str "other"), ("needs_clarification", .bool false),
   ("collected_info", .obj []), ("suggested_next_state", .null)]

/-- Install every default whose key is absent (the for-loop of
_validate_parsed_result). -/
def applyDefaults : List (String × JValue) → List (String × JValue) →
    List (String × JValue)
  | parsed, [] => parsed
  | parsed, (k, v) :: rest =>
    applyDefaults (if (dictGet parsed k).isSome then parsed else parsed ++ [(k, v)]) rest

/-- The expression ", ".join(symptoms) if symptoms else "your symptoms":
join raises TypeError on a non-string element or a non-iterable truthy
value; a truthy string iterates its characters and a truthy dict its
keys. -/
def joinSymptoms : JValue → Except String String
  | v =>
    if !v.truthy then .ok "your symptoms"
    else
      match v with
      | .arr xs =>
        match xs.mapM (fun x => match x with
                       | .str s => Except.ok s
                       | _ => Except.error "TypeError: join") with
        | .ok ss => .ok (String.intercalate ", " ss)
        | .error e => .error e
      | .str s => .ok (String.intercalate ", " (s.data.map (fun c => ⟨[c]⟩)))
      | .obj fs => .ok (String.intercalate ", " (fs.map Prod.fst))
      | _ => .error "TypeError: join"

/-- The leakage-guard test of _validate_parsed_result on the response
value: a falsy response must be replaced; a truthy string is checked with
_looks_like_json; a truthy non-string raises at .strip() inside
_looks_like_json.  Returns whether the response has to be replaced. -/
def leakGuardCheck (response_text : JValue) : Except String Bool :=
  if response_text.truthy then
    match response_text with
    | .str s => .ok (looks_like_json s)
    | _ => .error "AttributeError: strip"
  else .ok true

/-- The synthesized replacement sentence of _validate_parsed_result,
chosen by priority: emergency notice, department recommendation (may raise
inside join), generic clarification. -/
def synthesizeResponse (parsed : List (String × JValue)) :
    Except String String :=
  if ((dictGet parsed "is_emergency").getD .null).truthy then
    .ok emergencyNoticeV
  else if ((dictGet parsed "recommended_department").getD (.str "")).truthy then
    match joinSymptoms ((dictGet parsed "extracted_symptoms").getD (.arr [])) with
    | .error e => .error e
    | .ok symptomStr =>
      .ok (deptMsgV symptomStr
            ((dictGet parsed "recommended_department").getD (.str ""))
            ((dictGet parsed "severity").getD (.str "")))
  else .ok genericMsgV

/-- _validate_parsed_result from llm_engine.py: run the leakage guard on
the response field; when it fires, substitute the synthesized sentence;
finally install defaults for absent keys. -/
def validate_parsed_result (parsed : List (String × JValue)) :
    Except String (List (String × JValue)) :=
  match leakGuardCheck ((dictGet parsed "response").getD (.str "")) with
  | .error e => .error e
  | .ok true =>
    (match synthesizeResponse parsed with
     | .error e => .error e
     | .ok msg =>
       .ok (applyDefaults (dictSet parsed "response" (.str msg)) DEFAULTS))
  | .ok false => .ok (applyDefaults parsed DEFAULTS)

/-- The fully-defaulted fallback result of _fallback_response. -/
def fallback_dict : List (String × JValue) :=
  [("response", .str fallbackText), ("extracted_symptoms", .arr []),
   ("severity", .null), ("is_emergency", .bool false),
   ("recommended_department", .null), ("intent", .str "other"),
   ("needs_clarification", .bool false), ("collected_info", .obj []),
   ("suggested_next_state", .null)]

/-- generate from llm_engine.py, factored over the parsed payload: a
successfully parsed dict is validated; any exception inside parsing or
validation is absorbed into the fallback result.  Raw outputs on which all
three parse tiers fail also produce fallback_dict, so quantifying over
every association list parsed covers every raw generation-service
output. -/
def generate_validate (parsed : List (String × JValue)) :
    List (String × JValue) :=
  match validate_parsed_result parsed with
  | .ok d => d
  | .error _ => fallback_dict

example : generate_validate [] =
    applyDefaults (dictSet [] "response" (.str genericMsgV)) DEFAULTS := by rfl
example : dictGet (generate_validate [("response", .str "hi")]) "response" =
    some (.str "hi") := by rfl
example : dictGet (generate_validate
    [("response", .str " \x7b\"a\": 1\x7d")]) "response" =
    some (.str genericMsgV) := by rfl
example : generate_validate [("response", .bool true)] = fallback_dict := by rfl

/-! ## src/chatbot/conversation_manager.py : data model -/

/-- One role-tagged history entry.  The content of an assistant entry is
whatever _sanitize_response returned (a JValue, normally a string). -/
structure HistMsg where
  role : String
  content : JValue

/-- The appointment sub-record of the context: four optional strings.
Values are only ever written by the collected_info merge, which assigns
string values (a truthy non-string raises first), so Option String is
exact. -/
structure Appt where
  patient_name : Option String
  preferred_date : Option String
  preferred_time : Option String
  contact_number : Option String

/-- The session context of conversation_manager.py.  Every key of the
Python dict is always present (create_initial_context creates them all),
so optional fields model present-but-None values.  department stores the
raw truthy value provided by the service result (any JValue). -/
structure Ctx where
  state : String
  symptoms : List String
  severity : Option String
  department : Option JValue
  is_emergency : Bool
  appointment : Appt
  history : List HistMsg
  booking_id : Option String

/-- create_initial_context from conversation_manager.py. -/
def create_initial_context : Ctx :=
  { state := "greeting", symptoms := [], severity := none, department := none,
    is_emergency := false,
    appointment := { patient_name := none, preferred_date := none,
                     preferred_time := none, contact_number := none },
    history := [], booking_id := none }

/-- A generation-service result as it reaches process_message: always the
output of _validate_parsed_result or _fallback_response, so all nine keys
are present and the response is a string.  The container shape of
extracted_symptoms (a list) and collected_info (a dict) follows the
declared schema; element and value types are unconstrained JSON values,
which is exactly what validation leaves unconstrained. -/
structure ValidatedResult where
  response : String
  extracted_symptoms : List JValue
  severity : JValue
  is_emergency : JValue
  recommended_department : JValue
  intent : JValue
  needs_clarification : JValue
  collected_info : List (String × JValue)
  suggested_next_state : JValue

/-! ## Orchestrator constants (config.py and local bounds) -/

def MAX_CONVERSATION_TURNS : Nat := 50
def MAX_MSG_CHARS : Nat := 2000
def MAX_HISTORY : Nat := 24

/-- Fixed reply to an empty message. -/
def promptMessage : String := "Please type a message to get started."

/-- Fixed turn-limit message. -/
def limitMessage : String :=
  "⚠️ This conversation has reached the maximum number of turns. Please click **🔄 New Conversation** to start fresh."

/-! ## Orchestrator steps -/

/-- Number of prior user-authored history entries. -/
def userTurnCount (c : Ctx) : Nat :=
  (c.history.filter (fun m => m.role == "user")).length

/-- Strip, then truncate to MAX_MSG_CHARS with the truncation marker
(steps 0-1 of process_message). -/
def prepMessage (msg : String) : String :=
  let m := pyStrip msg
  if MAX_MSG_CHARS < pyLen m then pySliceTo m MAX_MSG_CHARS ++ "... (truncated)"
  else m

/-- Keep only the most recent MAX_HISTORY entries (drop oldest first). -/
def trimHistory (h : List HistMsg) : List HistMsg :=
  if MAX_HISTORY < h.length then h.drop (h.length - MAX_HISTORY) else h

/-- Append the user message and trim the window (step 1). -/
def step_history (msg : String) (c : Ctx) : Ctx :=
  { c with history := trimHistory (c.history ++ [⟨"user", .str msg⟩]) }

/-- Normalize one extracted symptom: s.lower().strip(); a non-string
element raises AttributeError. -/
def normSymptom : JValue → Except String String
  | .str s => .ok (pyStrip (pyLower s))
  | _ => .error "AttributeError: lower"

/-- Normalize every extracted symptom in order, propagating the first
fault (the generator expression inside set.update). -/
def mapSymptoms : List JValue → Except String (List String)
  | [] => .ok []
  | v :: t =>
    match normSymptom v with
    | .error e => .error e
    | .ok s =>
      match mapSymptoms t with
      | .error e => .error e
      | .ok ss => .ok (s :: ss)

/-- Step 4: merge extracted_symptoms into the symptom set.  An empty list
is falsy and skips the merge entirely; otherwise the existing list and the
normalized new entries are combined as a Python set (modelled by a
duplicate-free list; iteration order of a Python set is not relied on by
the source). -/
def mergeSymptomsStep (c : Ctx) (new_symptoms : List JValue) :
    Except String Ctx :=
  if new_symptoms.isEmpty then .ok c
  else
    match mapSymptoms new_symptoms with
    | .error e => .error e
    | .ok ns => .ok { c with symptoms := (c.symptoms ++ ns).dedup }

/-- Step 5: overwrite severity when the result severity is one of the
three recognized values (last-writer-wins). -/
def step_severity (c : Ctx) (sv : JValue) : Ctx :=
  if sv.truthy && (sv.eqStr "critical" || sv.eqStr "moderate" || sv.eqStr "mild")
  then { c with severity := some sv.getStr }
  else c

/-- Step 6: overwrite department when the result provides a truthy one. -/
def step_department (c : Ctx) (d : JValue) : Ctx :=
  if d.truthy then { c with department := some d } else c

/-- Read one appointment field. -/
def apptFieldVal (a : Appt) : String → Option String
  | "patient_name" => a.patient_name
  | "preferred_date" => a.preferred_date
  | "preferred_time" => a.preferred_time
  | "contact_number" => a.contact_number
  | _ => none

/-- Write one appointment field. -/
def setApptField (a : Appt) (key : String) (s : String) : Appt :=
  if key == "patient_name" then { a with patient_name := some s }
  else if key == "preferred_date" then { a with preferred_date := some s }
  else if key == "preferred_time" then { a with preferred_time := some s }
  else if key == "contact_number" then { a with contact_number := some s }
  else a

/-- Classification of one incoming collected_info value, following
"if value and value.lower() not in (\"null\", \"none\", \"\")": absent or
falsy values are skipped, a truthy non-string raises at .lower(), a
sentinel string is skipped, anything else is stored. -/
def incomingVal : Option JValue → Except String (Option String)
  | none => .ok none
  | some jv =>
    if jv.truthy then
      match jv with
      | .str s =>
        if pyLower s == "null" || pyLower s == "none" || pyLower s == "" then
          .ok none
        else .ok (some s)
      | _ => .error "AttributeError: lower"
    else .ok none

/-- One iteration of the collected_info for-loop. -/
def updField (a : Appt) (key : String) (v : Option JValue) :
    Except String Appt :=
  match incomingVal v with
  | .error e => .error e
  | .ok none => .ok a
  | .ok (some s) => .ok (setApptField a key s)

/-- Step 7: merge the four appointment fields; an empty (falsy)
collected_info skips the loop. -/
def step_appointment (c : Ctx) (ci : List (String × JValue)) :
    Except String Ctx :=
  if ci.isEmpty then .ok c
  else
    match updField c.appointment "patient_name" (dictGet ci "patient_name") with
    | .error e => .error e
    | .ok a1 =>
      match updField a1 "preferred_date" (dictGet ci "preferred_date") with
      | .error e => .error e
      | .ok a2 =>
        match updField a2 "preferred_time" (dictGet ci "preferred_time") with
        | .error e => .error e
        | .ok a3 =>
          match updField a3 "contact_number" (dictGet ci "contact_number") with
          | .error e => .error e
          | .ok a4 => .ok { c with appointment := a4 }

/-- _detect_intent_switch from conversation_manager.py. -/
def detect_intent_switch (current_state : String) (llm_intent : JValue) : Bool :=
  (llm_intent.eqStr "symptom_report" &&
    (current_state == "collecting_details" ||
     current_state == "booking_confirmation" ||
     current_state == "appointment_offer"))
  || (llm_intent.eqStr "booking_request" &&
      (current_state == "symptom_collection" ||
       current_state == "severity_assessment"))
  || (llm_intent.eqStr "cancellation" &&
      (current_state == "collecting_details" ||
       current_state == "booking_confirmation"))

/-- _resolve_intent_switch from conversation_manager.py. -/
def resolve_intent_switch (llm_intent : JValue) : Option String :=
  if llm_intent.eqStr "symptom_report" then some "symptom_collection"
  else if llm_intent.eqStr "booking_request" then some "appointment_offer"
  else if llm_intent.eqStr "cancellation" then some "completed"
  else if llm_intent.eqStr "greeting" then some "greeting"
  else none

/-- is_valid_transition applied to a raw suggested value: only a string
can ever be valid (a non-string equals no table entry). -/
def jIsValid (current_state : String) (next : JValue) : Bool :=
  match next with
  | .str s => is_valid_transition current_state s
  | _ => false

/-- _get_emergency_response from conversation_manager.py (reads only the
symptom list of the context). -/
def get_emergency_response (keywords : List String) (c : Ctx) : String :=
  let matched := String.intercalate ", " (keywords.take 3)
  let joined := String.intercalate ", " c.symptoms
  let symptoms_str := if joined == "" then matched else joined
  "🚨 **EMERGENCY ALERT** 🚨\n\nBased on what you" ++ apos ++
    "ve described (**" ++ symptoms_str ++
    "**), this appears to be a **critical medical emergency**.\n\n### ⚡ Immediate Actions Required:\n\n1. **Call emergency services NOW**: Dial **911** (US) or **112** (EU/India)\n2. **Do not wait** — seek immediate medical attention\n3. If someone is with you, ask them to help while you call\n\n### 🚫 Important:\n- I **cannot** book a regular appointment for emergency conditions\n- Emergency cases need **immediate in-person medical care**\n- Please go to the nearest **Emergency Room (ER)** if you can\n\n---\n*Once you are safe, feel free to start a new conversation for any non-emergency health concerns.*"

/-- Step 8 of process_message: decide response text and next state by
strict priority (scanner, then service emergency or critical severity,
then intent switch, then validated suggested state). -/
def step_state (scan : List String) (llm : ValidatedResult) (c : Ctx) :
    String × Ctx :=
  let response := llm.response
  if !scan.isEmpty then
    let cE := { c with state := "emergency", is_emergency := true,
                       severity := some "critical" }
    if llm.is_emergency.truthy then (response, cE)
    else (get_emergency_response scan cE, cE)
  else if llm.is_emergency.truthy || llm.severity.eqStr "critical" then
    (response, { c with state := "emergency", is_emergency := true,
                        severity := some "critical" })
  else if detect_intent_switch c.state llm.intent then
    match resolve_intent_switch llm.intent with
    | some ns => (response, { c with state := ns })
    | none => (response, c)
  else if llm.suggested_next_state.truthy &&
          jIsValid c.state llm.suggested_next_state then
    (response, { c with state := llm.suggested_next_state.getStr })
  else (response, c)

/-! ## Booking step and final sanitization -/

/-- The four required appointment fields, in source order. -/
def REQUIRED_FIELDS : List String :=
  ["patient_name", "preferred_date", "preferred_time", "contact_number"]

/-- Truthiness of an appointment field value (None and empty are falsy). -/
def optTruthyS : Option String → Bool
  | none => false
  | some s => !(s == "")

/-- The fields with no truthy value ([f for f in required if not appt.get(f)]). -/
def missingFields (a : Appt) : List String :=
  REQUIRED_FIELDS.filter (fun f => !(optTruthyS (apptFieldVal a f)))

/-- Render an optional field the way an f-string renders it (None prints
as None; in the branches that use this all fields are present). -/
def fieldRender : Option String → String
  | some s => s
  | none => "None"

/-- Render context.get("department", "General Medicine"): the key is
always present, so a missing department renders the None value. -/
def deptRender (c : Ctx) : String :=
  match c.department with
  | some v => pyStr v
  | none => "None"

/-- The confirmation text of the successful booking branch; the booking
identifier is displayed through its last eight characters. -/
def bookingSuccessMsg (booking_id : String) (a : Appt) (c : Ctx)
    (sevTitle : String) : String :=
  "✅ **Appointment Confirmed!**\n\n📋 **Booking Details:**\n\n| Field | Details |\n|-------|--------|\n| 🆔 **Booking ID** | `" ++
    (pyLast booking_id 8 ++
     ("` |\n| 👤 **Patient** | " ++ fieldRender a.patient_name ++
      " |\n| 📅 **Date** | " ++ fieldRender a.preferred_date ++
      " |\n| 🕐 **Time** | " ++ fieldRender a.preferred_time ++
      " |\n| 📞 **Contact** | " ++ fieldRender a.contact_number ++
      " |\n| 🏥 **Department** | " ++ deptRender c ++
      " |\n| ⚖️ **Severity** | " ++ sevTitle ++
      " |\n\nYour appointment has been saved. Please arrive **15 minutes early** and bring any relevant medical documents.\n\nIs there anything else I can help you with?"))

/-- The text of the failed-save branch, ending in the manual-confirmation
notice. -/
def bookingFailMsg (a : Appt) (c : Ctx) : String :=
  "⚠️ **Appointment Details Recorded** (Database temporarily unavailable)\n\n📋 **Your Details:**\n\n| Field | Details |\n|-------|--------|\n| 👤 **Patient** | " ++
    (fieldRender a.patient_name ++
     (" |\n| 📅 **Date** | " ++ fieldRender a.preferred_date ++
      " |\n| 🕐 **Time** | " ++ fieldRender a.preferred_time ++
      " |\n| 📞 **Contact** | " ++ fieldRender a.contact_number ++
      " |\n| 🏥 **Department** | " ++ deptRender c ++
      " |\n\n" ++
      ("Please call the hospital directly to confirm your appointment." ++
       "\n\nIs there anything else I can help you with?")))

/-- _handle_booking from conversation_manager.py.  dbSave is the oracle
value returned by the one save_appointment call of this step (none for an
unavailable database); the Nat counts save attempts.  In the successful
branch context.get("severity", "N/A") yields the present severity value,
so a None severity raises at .title(). -/
def handle_booking (response : String) (c : Ctx) (dbSave : Option String) :
    Except String (String × Ctx × Nat) :=
  if !(missingFields c.appointment).isEmpty then
    .ok (response, { c with state := "collecting_details" }, 0)
  else
    match dbSave with
    | some booking_id =>
      if booking_id == "" then
        .ok (bookingFailMsg c.appointment c,
             { c with state := "completed" }, 1)
      else
        match c.severity with
        | some sv =>
          .ok (bookingSuccessMsg booking_id c.appointment c (pyTitle sv),
               { c with state := "completed", booking_id := some booking_id }, 1)
        | none => .error "AttributeError: title"
    | none =>
      .ok (bookingFailMsg c.appointment c, { c with state := "completed" }, 1)

/-- _sanitize_response from conversation_manager.py: if the response still
looks like JSON, extract the response field (whatever JSON value it holds)
or substitute the generic sentence; otherwise return the text unchanged. -/
def sanitize_response (response : String) : JValue :=
  let stripped := pyStrip response
  if pyStartsWith stripped "\x7b" then
    match jsonParse stripped with
    | some (.obj fs) =>
      (match dictGet fs "response" with
       | some v => v
       | none => .str genericMsgV)
    | some _ => .str genericMsgV
    | none => .str response
  else .str response

/-! ## process_message -/

/-- The outcome of one turn: the value returned to the caller, the updated
context, and the number of persistence save attempts made. -/
structure TurnOut where
  response : JValue
  ctx : Ctx
  saves : Nat

/-- process_message from conversation_manager.py, with the generation
service result and the persistence oracle supplied as parameters (the
result is always validated before it reaches this code, see
ValidatedResult). -/
def process_message (msg : String) (c0 : Ctx) (llm : ValidatedResult)
    (dbSave : Option String) : Except String TurnOut :=
  if pyStrip msg == "" then .ok ⟨.str promptMessage, c0, 0⟩
  else if MAX_CONVERSATION_TURNS ≤ userTurnCount c0 then
    .ok ⟨.str limitMessage, c0, 0⟩
  else
    let m := prepMessage msg
    let c1 := step_history m c0
    match mergeSymptomsStep c1 llm.extracted_symptoms with
    | .error e => .error e
    | .ok c2 =>
      let c3 := step_severity c2 llm.severity
      let c4 := step_department c3 llm.recommended_department
      match step_appointment c4 llm.collected_info with
      | .error e => .error e
      | .ok c5 =>
        let scan := check_emergency_keywords m
        let rc := step_state scan llm c5
        match (if rc.2.state == "booking_confirmation" then
                 handle_booking rc.1 rc.2 dbSave
               else .ok (rc.1, rc.2, 0)) with
        | .error e => .error e
        | .ok (r2, c7, saves) =>
          let rF := sanitize_response r2
          .ok ⟨rF, { c7 with history := c7.history ++ [⟨"assistant", rF⟩] }, saves⟩

/-- A sequence of turns (message, validated result, persistence oracle),
threaded through the context; a raised turn stops the run. -/
def runTurns : List (String × ValidatedResult × Option String) → Ctx →
    Except String Ctx
  | [], c => .ok c
  | (m, r, db) :: rest, c =>
    match process_message m c r db with
    | .error e => .error e
    | .ok out => runTurns rest out.ctx

/-! ## The schema-typed generation-service result

The Result record of spec section 3: response text, a list of symptom
strings, optional enumerated severity, boolean emergency flag, optional
department, intent label, clarification flag, four optional collected
strings and an optional suggested state.  lift injects it into the
validated-dict reading used by process_message. -/

structure CollectedInfo where
  patient_name : Option String
  preferred_date : Option String
  preferred_time : Option String
  contact_number : Option String

structure ResultT where
  response : String
  extracted_symptoms : List String
  severity : Option String
  is_emergency : Bool
  recommended_department : Option String
  intent : String
  needs_clarification : Bool
  collected_info : CollectedInfo
  suggested_next_state : Option String

def optJ : Option String → JValue
  | none => .null
  | some s => .str s

def ResultT.lift (r : ResultT) : ValidatedResult :=
  { response := r.response,
    extracted_symptoms := r.extracted_symptoms.map JValue.str,
    severity := optJ r.severity,
    is_emergency := .bool r.is_emergency,
    recommended_department := optJ r.recommended_department,
    intent := .str r.intent,
    needs_clarification := .bool r.needs_clarification,
    collected_info :=
      [("patient_name", optJ r.collected_info.patient_name),
       ("preferred_date", optJ r.collected_info.preferred_date),
       ("preferred_time", optJ r.collected_info.preferred_time),
       ("contact_number", optJ r.collected_info.contact_number)],
    suggested_next_state := optJ r.suggested_next_state }

/-- A result with nothing extracted and no suggestion. -/
def trivialResult : ValidatedResult :=
  { response := "Okay.", extracted_symptoms := [], severity := .null,
    is_emergency := .null, recommended_department := .null,
    intent := .str "other", needs_clarification := .bool false,
    collected_info := [], suggested_next_state := .null }

example :
    (process_message "hello" create_initial_context trivialResult none).toOption.map
      (fun t => t.ctx.state) = some "greeting" := by rfl

example :
    (process_message "I am having a heart attack" create_initial_context
        trivialResult none).toOption.map
      (fun t => (t.ctx.state, t.ctx.is_emergency, t.ctx.severity)) =
    some ("emergency", true, some "critical") := by rfl

/-! ## Concrete fixtures used by counterexamples and witnesses -/

/-- 1996 filler characters followed by an emergency phrase: the phrase
starts past the 2000-character truncation bound. -/
def longEmergencyMsg : String := ⟨List.replicate 1996 'x'⟩ ++ "heart attack"

/-- The visible tail of the prepared long message: the four surviving
characters of the phrase plus the truncation marker. -/
def truncScanTail : String := "hear... (truncated)"

/-- A keyword misses the truncated text when its head is not the filler
character and it does not occur in the concrete tail. -/
def kwMissesTrunc : List Char → Bool
  | [] => false
  | c :: t => !(c == 'x') && !(hasSub (c :: t) truncScanTail.data)

/-- A validated result reporting moderate severity and nothing else. -/
def moderateResult : ValidatedResult :=
  { trivialResult with severity := .str "moderate", response := "Noted." }

/-- A context in an emergency episode. -/
def emergencyCtx : Ctx :=
  { create_initial_context with state := "emergency", is_emergency := true,
                                severity := some "critical" }

/-- A context in the booking flow with all four appointment fields
collected and severity never assessed. -/
def bookingCtxNoSeverity : Ctx :=
  { create_initial_context with
      state := "collecting_details",
      appointment := { patient_name := some "John Doe",
                       preferred_date := some "2026-10-20",
                       preferred_time := some "10:00",
                       contact_number := some "5551234" } }

/-- A validated result that suggests moving to booking_confirmation. -/
def confirmResult : ValidatedResult :=
  { trivialResult with response := "Shall I confirm your booking?",
                       suggested_next_state := .str "booking_confirmation" }

example :
    (process_message "feeling a bit better now" emergencyCtx moderateResult
        none).toOption.map (fun t => t.ctx.severity) = some (some "moderate") := by rfl

example :
    (handle_booking "Confirm?" bookingCtxNoSeverity (some "67a1b2c3d4e5f678")).toOption
      = none := by rfl

example :
    process_message "Yes, please book it now" bookingCtxNoSeverity confirmResult
        (some "67a1b2c3d4e5f678") = .error "AttributeError: title" := by rfl

example :
    (runTurns (List.replicate 13 ("hello", trivialResult, none))
        create_initial_context).toOption.map (fun c => c.history.length)
      = some 25 := by rfl

example :
    (process_message "ok then" { create_initial_context with state := "booking_confirmation" }
        { trivialResult with suggested_next_state := .str "greeting" }
        none).toOption.map (fun t => t.ctx.state) = some "collecting_details" := by rfl

/-! ## Helper lemmas: substring search -/

theorem leadEq_self_append (l r : List Char) : leadEq l (l ++ r) = true := by
  induction l with
  | nil => rfl
  | cons a t ih => simp [leadEq, ih]

theorem hasSub_self_append (n r : List Char) : hasSub n (n ++ r) = true := by
  cases n with
  | nil => cases r <;> simp [hasSub, leadEq]
  | cons a t =>
    have h := leadEq_self_append (a :: t) r
    simp only [List.cons_append] at h ⊢
    simp [hasSub, h]

theorem hasSub_cons_of_hasSub (n : List Char) (c : Char) (t : List Char)
    (h : hasSub n t = true) : hasSub n (c :: t) = true := by
  simp [hasSub, h]

theorem hasSub_append_left (n x t : List Char) (h : hasSub n t = true) :
    hasSub n (x ++ t) = true := by
  induction x with
  | nil => simpa using h
  | cons c cs ih => simpa using hasSub_cons_of_hasSub n c (cs ++ t) ih

theorem strContains_of_data (s needle : String) (x y : List Char)
    (h : s.data = x ++ (needle.data ++ y)) : strContains s needle = true := by
  unfold strContains
  rw [h]
  exact hasSub_append_left _ _ _ (hasSub_self_append _ _)

theorem hasSub_skip_replicate (c0 : Char) (nt : List Char) (x : Char)
    (n : Nat) (t : List Char) (h : (c0 == x) = false) :
    hasSub (c0 :: nt) (List.replicate n x ++ t) = hasSub (c0 :: nt) t := by
  induction n with
  | zero => rfl
  | succ m ih =>
    simp only [List.replicate_succ, List.cons_append, hasSub, leadEq, h,
      Bool.false_and, Bool.false_or]
    exact ih

/-! ## Helper lemmas: dropWhile and pyStrip -/

theorem dropWhile_append_cons (p : Char → Bool) (l : List Char) (c : Char)
    (r : List Char) (h : p c = false) :
    (l ++ c :: r).dropWhile p = l.dropWhile p ++ c :: r := by
  induction l with
  | nil => simp [List.dropWhile, h]
  | cons a t ih =>
    by_cases ha : p a = true
    · simp [List.dropWhile, ha, ih]
    · simp at ha
      simp [List.dropWhile, ha]

theorem pyStrip_data_cons (s : String) (c : Char) (t : List Char)
    (hd : s.data = c :: t) (hc : isSpaceChar c = false) :
    ∃ u, (pyStrip s).data = c :: u := by
  refine ⟨((t.reverse.dropWhile isSpaceChar).reverse), ?_⟩
  unfold pyStrip
  rw [hd]
  simp only [List.dropWhile, hc]
  rw [show (c :: t).reverse = t.reverse ++ c :: [] from by simp]
  rw [dropWhile_append_cons _ _ _ _ hc]
  simp

/-! ## Helper lemmas: parser shapes and payload detection -/

theorem parseNumber_not_obj (cs : List Char) (fs : List (String × JValue))
    (r : List Char) : parseNumber cs ≠ some (.obj fs, r) := by
  unfold parseNumber
  cases cs with
  | nil =>
    simp only []
    rcases h1 : takeDigits [] with ⟨ds, r1⟩
    cases ds <;> simp_all [takeDigits]
  | cons a t =>
    rcases h0 : (match a :: t with
      | '-' :: t => (true, t)
      | _ => (false, a :: t)) with ⟨neg, cs1⟩
    simp only [h0]
    rcases h1 : takeDigits cs1 with ⟨ds, r1⟩
    cases ds with
    | nil => simp
    | cons d dt =>
      simp only []
      rcases h2 : parseFrac r1 with _ | ⟨fsx, r2⟩
      · simp
      · simp only []
        rcases h3 : parseExp r2 with _ | ⟨es, r3⟩
        · simp
        · by_cases h4 : fsx.isEmpty && es.isEmpty <;> simp [h4]

theorem parseMembers_shape (fuel : Nat) :
    ∀ cs acc v r, parseMembers fuel cs acc = some (v, r) →
      ∃ fs, v = JValue.obj fs := by
  induction fuel with
  | zero => intro cs acc v r h; simp [parseMembers] at h
  | succ f ih =>
    intro cs acc v r h
    unfold parseMembers at h
    repeat' split at h
    all_goals
      first
      | exact ih _ _ _ _ h
      | (simp only [Option.some.injEq, Prod.mk.injEq] at h
         exact ⟨_, h.1.symm⟩)
      | exact absurd h (by simp)

theorem parseItems_shape (fuel : Nat) :
    ∀ cs acc v r, parseItems fuel cs acc = some (v, r) →
      ∃ xs, v = JValue.arr xs := by
  induction fuel with
  | zero => intro cs acc v r h; simp [parseItems] at h
  | succ f ih =>
    intro cs acc v r h
    unfold parseItems at h
    repeat' split at h
    all_goals
      first
      | exact ih _ _ _ _ h
      | (simp only [Option.some.injEq, Prod.mk.injEq] at h
         exact ⟨_, h.1.symm⟩)
      | exact absurd h (by simp)

theorem parseValue_obj_head (fuel : Nat) (cs : List Char)
    (fs : List (String × JValue)) (r : List Char)
    (h : parseValue fuel cs = some (.obj fs, r)) :
    ∃ t, skipWS cs = '\x7b' :: t := by
  cases fuel with
  | zero => simp [parseValue] at h
  | succ f =>
    unfold parseValue at h
    repeat' split at h
    all_goals
      first
      | exact ⟨_, by assumption⟩
      | exact absurd h (by simp)
      | exact absurd h (parseNumber_not_obj _ _ _)
      | (rcases parseItems_shape f _ _ _ _ h with ⟨xs, hx⟩
         simp at hx)

theorem parseValue_brace (fuel : Nat) (cs t : List Char) (v : JValue)
    (r : List Char) (hs : skipWS cs = '\x7b' :: t)
    (h : parseValue fuel cs = some (v, r)) : ∃ fs, v = JValue.obj fs := by
  cases fuel with
  | zero => simp [parseValue] at h
  | succ f =>
    unfold parseValue at h
    repeat' split at h
    all_goals
      first
      | exact parseMembers_shape f _ _ _ _ h
      | (simp only [Option.some.injEq, Prod.mk.injEq] at h
         exact ⟨_, h.1.symm⟩)
      | (exfalso; simp_all)

theorem jsonParse_obj_start (s : String) (fs : List (String × JValue))
    (h : jsonParse s = some (.obj fs)) : ∃ t, skipWS s.data = '\x7b' :: t := by
  unfold jsonParse at h
  rcases hpv : parseValue (s.data.length + 16) s.data with _ | ⟨v, rest⟩
  · rw [hpv] at h
    simp at h
  · rw [hpv] at h
    simp only [] at h
    by_cases hie : (skipWS rest).isEmpty = true
    · rw [if_pos hie] at h
      simp only [Option.some.injEq] at h
      rw [h] at hpv
      exact parseValue_obj_head _ _ _ _ hpv
    · rw [if_neg hie] at h
      simp at h

theorem jsonParse_of_brace (s : String) (t : List Char)
    (hs : skipWS s.data = '\x7b' :: t) :
    jsonParse s = none ∨ ∃ fs, jsonParse s = some (.obj fs) := by
  unfold jsonParse
  split
  · rename_i v rest heq
    rcases parseValue_brace _ _ _ _ _ hs heq with ⟨fs, rfl⟩
    split
    · exact Or.inr ⟨fs, rfl⟩
    · exact Or.inl rfl
  · exact Or.inl rfl

/-! ## Helper lemmas: head characters, stripping and the leakage guard -/

theorem jsonWS_of_isSpaceChar (c : Char) (h : isSpaceChar c = false) :
    jsonWS c = false := by
  unfold isSpaceChar at h
  unfold jsonWS
  rcases Bool.or_eq_false_iff.mp h with ⟨h1, h2⟩
  rcases Bool.or_eq_false_iff.mp h1 with ⟨h3, h4⟩
  rcases Bool.or_eq_false_iff.mp h3 with ⟨h5, h6⟩
  rcases Bool.or_eq_false_iff.mp h5 with ⟨h7, h8⟩
  simp [h2, h4, h6, h7, h8]

theorem dropWhile_head_false (p : Char → Bool) (l : List Char) (c : Char)
    (u : List Char) (h : l.dropWhile p = c :: u) : p c = false := by
  induction l with
  | nil => simp [List.dropWhile] at h
  | cons a t ih =>
    by_cases ha : p a = true
    · rw [List.dropWhile_cons, if_pos ha] at h
      exact ih h
    · simp at ha
      rw [List.dropWhile_cons, if_neg (by simp [ha])] at h
      cases h
      exact ha

theorem pyStrip_head_not_space (s : String) (c : Char) (u : List Char)
    (h : (pyStrip s).data = c :: u) : isSpaceChar c = false := by
  unfold pyStrip at h
  simp only [] at h
  rcases hd1 : s.data.dropWhile isSpaceChar with _ | ⟨c1, u1⟩
  · rw [hd1] at h
    simp at h
  · have hc1 : isSpaceChar c1 = false := dropWhile_head_false _ _ _ _ hd1
    rw [hd1] at h
    rw [show (c1 :: u1).reverse = u1.reverse ++ c1 :: [] from by simp] at h
    rw [dropWhile_append_cons _ _ _ _ hc1] at h
    simp only [List.reverse_append, List.reverse_cons, List.reverse_nil,
      List.nil_append, List.cons_append] at h
    cases h
    exact hc1

theorem skipWS_of_head_not_space (c : Char) (u : List Char)
    (h : isSpaceChar c = false) : skipWS (c :: u) = c :: u := by
  unfold skipWS
  rw [List.dropWhile_cons, if_neg (by simp [jsonWS_of_isSpaceChar c h])]

theorem leadEq_singleton (c : Char) (l : List Char)
    (h : leadEq [c] l = true) : ∃ u, l = c :: u := by
  cases l with
  | nil => simp [leadEq] at h
  | cons a t =>
    refine ⟨t, ?_⟩
    unfold leadEq at h
    rcases Bool.and_eq_true_iff.mp h with ⟨h1, _⟩
    have : c = a := by
      have := beq_iff_eq.mp h1
      exact this
    rw [this]

theorem isPayload_false_of_head (s : String) (c : Char) (t : List Char)
    (hd : s.data = c :: t) (hws : isSpaceChar c = false)
    (hbr : (c == '\x7b') = false) : isPayload s = false := by
  rcases pyStrip_data_cons s c t hd hws with ⟨u, hu⟩
  unfold isPayload
  split
  · rename_i fs heq
    rcases jsonParse_obj_start _ _ heq with ⟨t2, ht2⟩
    rw [hu, skipWS_of_head_not_space c u hws] at ht2
    cases ht2
    simp at hbr
  · rfl

theorem isPayload_empty_data (s : String) (h : (pyStrip s).data = []) :
    isPayload s = false := by
  unfold isPayload
  have hps : pyStrip s = "" := by
    cases hx : pyStrip s with
    | mk d =>
      rw [hx] at h
      simp only at h
      rw [h]
  rw [hps]
  rfl

theorem isPayload_inv (s : String) (h : isPayload s = true) :
    ∃ fs, jsonParse (pyStrip s) = some (.obj fs) := by
  unfold isPayload at h
  split at h
  · rename_i fs heq
    exact ⟨fs, heq⟩
  · simp at h

theorem pyStrip_empty_string (s : String) (h : (pyStrip s).data = []) :
    pyStrip s = "" := by
  cases hx : pyStrip s with
  | mk d =>
    rw [hx] at h
    simp only at h
    rw [h]

theorem looks_like_json_of_isPayload (s : String) (h : isPayload s = true) :
    looks_like_json s = true := by
  rcases isPayload_inv s h with ⟨fs, hjp⟩
  rcases hshape : (pyStrip s).data with _ | ⟨c, u⟩
  · rw [pyStrip_empty_string s hshape] at hjp
    exact absurd hjp (by
      simp [jsonParse, parseValue, skipWS, List.dropWhile, parseNumber,
        takeDigits])
  · have hcn : isSpaceChar c = false := pyStrip_head_not_space _ _ _ hshape
    rcases jsonParse_obj_start _ _ hjp with ⟨t2, ht2⟩
    rw [hshape, skipWS_of_head_not_space c u hcn] at ht2
    obtain ⟨rfl, rfl⟩ : c = '\x7b' ∧ u = t2 := by
      cases ht2; exact ⟨rfl, rfl⟩
    simp only [looks_like_json]
    have hsw : pyStartsWith (pyStrip s) "\x7b" = true := by
      unfold pyStartsWith
      rw [hshape]
      simp [leadEq]
    rw [hsw]
    simp [hjp]

theorem sanitize_of_notPayload (s : String) (h : isPayload s = false) :
    sanitize_response s = .str s := by
  simp only [sanitize_response]
  rcases hb : pyStartsWith (pyStrip s) "\x7b" with _ | _
  · simp [hb]
  · rcases leadEq_singleton '\x7b' (pyStrip s).data
        (by simpa [pyStartsWith] using hb) with ⟨u, hu⟩
    have hsw : skipWS (pyStrip s).data = '\x7b' :: u := by
      rw [hu]
      exact skipWS_of_head_not_space _ _ (by decide)
    rcases jsonParse_of_brace (pyStrip s) u hsw with hnone | ⟨fs, hobj⟩
    · simp [hb, hnone]
    · exfalso
      unfold isPayload at h
      rw [hobj] at h
      simp at h

/-- Head test used to discharge non-payload goals for synthesized texts:
the first character exists and is neither whitespace nor a brace. -/
def headNonBraceNonWS (s : String) : Bool :=
  match s.data with
  | [] => false
  | c :: _ => !(isSpaceChar c) && !(c == '\x7b')

theorem isPayload_false_of_headCheck (s : String)
    (h : headNonBraceNonWS s = true) : isPayload s = false := by
  unfold headNonBraceNonWS at h
  rcases hd : s.data with _ | ⟨c, t⟩
  · rw [hd] at h
    simp at h
  · rw [hd] at h
    simp only [Bool.and_eq_true, Bool.not_eq_true'] at h
    exact isPayload_false_of_head s c t hd h.1 h.2

theorem sanitize_of_headCheck (s : String) (h : headNonBraceNonWS s = true) :
    sanitize_response s = .str s :=
  sanitize_of_notPayload s (isPayload_false_of_headCheck s h)

/-! ## Helper lemmas: dict operations and defaults -/

theorem dictGet_append_ne (d : List (String × JValue)) (k1 : String)
    (v1 : JValue) (key : String) (h : (k1 == key) = false) :
    dictGet (d ++ [(k1, v1)]) key = dictGet d key := by
  induction d with
  | nil => simp [dictGet, h]
  | cons p t ih =>
    rcases p with ⟨k2, v2⟩
    by_cases h2 : (k2 == key) = true
    · simp [dictGet, h2]
    · simp at h2
      simp [dictGet, h2, ih]

theorem applyDefaults_get_ne (defs : List (String × JValue)) :
    ∀ d key, (∀ p ∈ defs, (p.1 == key) = false) →
      dictGet (applyDefaults d defs) key = dictGet d key := by
  induction defs with
  | nil => intro d key _; rfl
  | cons p rest ih =>
    intro d key hk
    rcases p with ⟨k, v⟩
    unfold applyDefaults
    rw [ih _ key (fun q hq => hk q (List.mem_cons_of_mem _ hq))]
    by_cases hs : (dictGet d k).isSome = true
    · rw [if_pos hs]
    · rw [if_neg hs]
      exact dictGet_append_ne d k v key (hk (k, v) (List.mem_cons_self _ _))

theorem dictGet_map_set (d : List (String × JValue)) (k : String) (v w : JValue)
    (h : dictGet d k = some w) :
    dictGet (d.map (fun p => if p.1 == k then (p.1, v) else p)) k = some v := by
  induction d with
  | nil => simp [dictGet] at h
  | cons p t ih =>
    rcases p with ⟨k1, v1⟩
    simp only [List.map_cons]
    by_cases h1 : (k1 == k) = true
    · rw [if_pos h1]
      simp only [dictGet, if_pos h1]
    · rw [if_neg h1]
      simp only [dictGet]
      rw [if_neg h1]
      apply ih
      simp only [dictGet] at h
      rw [if_neg h1] at h
      exact h

theorem dictGet_append_self (d : List (String × JValue)) (k : String)
    (v : JValue) (h : dictGet d k = none) :
    dictGet (d ++ [(k, v)]) k = some v := by
  induction d with
  | nil => simp [dictGet]
  | cons p t ih =>
    rcases p with ⟨k1, v1⟩
    by_cases h1 : (k1 == k) = true
    · rw [dictGet, if_pos h1] at h
      exact absurd h (by simp)
    · simp at h1
      rw [dictGet, if_neg (by simp [h1])] at h
      simp only [List.cons_append]
      rw [dictGet, if_neg (by simp [h1])]
      exact ih h

theorem dictSet_get_self (d : List (String × JValue)) (k : String) (v : JValue) :
    dictGet (dictSet d k v) k = some v := by
  unfold dictSet
  rcases hd : dictGet d k with _ | w
  · rw [if_neg (by simp [hd])]
    exact dictGet_append_self d k v hd
  · rw [if_pos (by simp [hd])]
    exact dictGet_map_set d k v w hd

theorem defaults_keys_ne_response :
    ∀ p ∈ DEFAULTS, (p.1 == "response") = false := by decide

/-! ## Validator inversion lemmas -/

theorem leakGuard_false_inv (rt : JValue) (h : leakGuardCheck rt = .ok false) :
    ∃ s, rt = .str s ∧ rt.truthy = true ∧ looks_like_json s = false := by
  unfold leakGuardCheck at h
  by_cases ht : rt.truthy = true
  · rw [if_pos ht] at h
    rcases rt with _ | b | n | tok | s | xs | fs <;>
      first
        | (have h2 : Except.ok (ε := String) (looks_like_json _) = Except.ok false := h
           exact ⟨_, rfl, ht, Except.ok.inj h2⟩)
        | exact absurd h (by simp)
  · rw [if_neg ht] at h
    exact absurd h (by simp)

theorem synthesize_head (parsed : List (String × JValue)) (msg : String)
    (h : synthesizeResponse parsed = .ok msg) :
    headNonBraceNonWS msg = true := by
  unfold synthesizeResponse at h
  by_cases h1 : ((dictGet parsed "is_emergency").getD .null).truthy = true
  · rw [if_pos h1] at h
    simp only [Except.ok.injEq] at h
    rw [← h]
    rfl
  · rw [if_neg h1] at h
    by_cases h2 : ((dictGet parsed "recommended_department").getD (.str "")).truthy = true
    · rw [if_pos h2] at h
      rcases hj : joinSymptoms ((dictGet parsed "extracted_symptoms").getD (.arr [])) with e | ss
      · rw [hj] at h
        exact absurd h (by simp)
      · rw [hj] at h
        simp only [Except.ok.injEq] at h
        rw [← h]
        rfl
    · rw [if_neg h2] at h
      simp only [Except.ok.injEq] at h
      rw [← h]
      rfl

theorem validate_ok_response (parsed d : List (String × JValue))
    (hv : validate_parsed_result parsed = .ok d) :
    ∃ s, dictGet d "response" = some (.str s) ∧ isPayload s = false := by
  unfold validate_parsed_result at hv
  rcases hlg : leakGuardCheck ((dictGet parsed "response").getD (.str "")) with e | b
  · rw [hlg] at hv
    exact absurd hv (by simp)
  · rw [hlg] at hv
    cases b with
    | false =>
      simp only [Except.ok.injEq] at hv
      rcases leakGuard_false_inv _ hlg with ⟨s, hs, htr, hlk⟩
      have hget : dictGet parsed "response" = some (.str s) := by
        rcases hg : dictGet parsed "response" with _ | w
        · rw [hg] at htr
          simp only [Option.getD_none] at htr
          simp [JValue.truthy] at htr
        · rw [hg] at hs
          simp only [Option.getD_some] at hs
          rw [hs]
      refine ⟨s, ?_, ?_⟩
      · rw [← hv]
        rw [applyDefaults_get_ne DEFAULTS parsed "response" defaults_keys_ne_response]
        exact hget
      · by_cases hp : isPayload s = true
        · exact absurd (looks_like_json_of_isPayload s hp) (by simp [hlk])
        · simpa using hp
    | true =>
      rcases hsy : synthesizeResponse parsed with e | msg
      · rw [hsy] at hv
        exact absurd hv (by simp)
      · rw [hsy] at hv
        simp only [Except.ok.injEq] at hv
        refine ⟨msg, ?_, isPayload_false_of_headCheck _ (synthesize_head _ _ hsy)⟩
        rw [← hv]
        rw [applyDefaults_get_ne DEFAULTS _ "response" defaults_keys_ne_response]
        exact dictSet_get_self parsed "response" (.str msg)

theorem generate_validate_response_safe (parsed : List (String × JValue)) :
    ∃ s, dictGet (generate_validate parsed) "response" = some (.str s) ∧
      isPayload s = false := by
  unfold generate_validate
  rcases hv : validate_parsed_result parsed with e | d
  · exact ⟨fallbackText, rfl, isPayload_false_of_headCheck _ (by rfl)⟩
  · rcases validate_ok_response parsed d hv with ⟨s, hget, hp⟩
    exact ⟨s, hget, hp⟩

/-! ## Frame lemmas for the orchestrator steps -/

theorem step_history_frame (m : String) (c : Ctx) :
    (step_history m c).state = c.state ∧
    (step_history m c).symptoms = c.symptoms ∧
    (step_history m c).severity = c.severity ∧
    (step_history m c).department = c.department ∧
    (step_history m c).is_emergency = c.is_emergency ∧
    (step_history m c).appointment = c.appointment ∧
    (step_history m c).booking_id = c.booking_id :=
  ⟨rfl, rfl, rfl, rfl, rfl, rfl, rfl⟩

theorem mergeSymptomsStep_frame (c : Ctx) (new : List JValue) (c2 : Ctx)
    (h : mergeSymptomsStep c new = .ok c2) :
    c2.state = c.state ∧ c2.severity = c.severity ∧
    c2.department = c.department ∧ c2.is_emergency = c.is_emergency ∧
    c2.appointment = c.appointment ∧ c2.history = c.history ∧
    c2.booking_id = c.booking_id := by
  unfold mergeSymptomsStep at h
  split at h
  · simp only [Except.ok.injEq] at h
    rw [← h]
    exact ⟨rfl, rfl, rfl, rfl, rfl, rfl, rfl⟩
  · split at h
    · exact absurd h (by simp)
    · simp only [Except.ok.injEq] at h
      rw [← h]
      exact ⟨rfl, rfl, rfl, rfl, rfl, rfl, rfl⟩

theorem mergeSymptomsStep_mono (c : Ctx) (new : List JValue) (c2 : Ctx)
    (h : mergeSymptomsStep c new = .ok c2) :
    ∀ x ∈ c.symptoms, x ∈ c2.symptoms := by
  intro x hx
  unfold mergeSymptomsStep at h
  split at h
  · simp only [Except.ok.injEq] at h
    rw [← h]
    exact hx
  · split at h
    · exact absurd h (by simp)
    · simp only [Except.ok.injEq] at h
      rw [← h]
      simp only [List.mem_dedup, List.mem_append]
      exact Or.inl hx

theorem step_severity_frame (c : Ctx) (sv : JValue) :
    (step_severity c sv).state = c.state ∧
    (step_severity c sv).symptoms = c.symptoms ∧
    (step_severity c sv).department = c.department ∧
    (step_severity c sv).is_emergency = c.is_emergency ∧
    (step_severity c sv).appointment = c.appointment ∧
    (step_severity c sv).history = c.history ∧
    (step_severity c sv).booking_id = c.booking_id := by
  unfold step_severity
  split
  · exact ⟨rfl, rfl, rfl, rfl, rfl, rfl, rfl⟩
  · exact ⟨rfl, rfl, rfl, rfl, rfl, rfl, rfl⟩

theorem step_department_frame (c : Ctx) (d : JValue) :
    (step_department c d).state = c.state ∧
    (step_department c d).symptoms = c.symptoms ∧
    (step_department c d).severity = c.severity ∧
    (step_department c d).is_emergency = c.is_emergency ∧
    (step_department c d).appointment = c.appointment ∧
    (step_department c d).history = c.history ∧
    (step_department c d).booking_id = c.booking_id := by
  unfold step_department
  split
  · exact ⟨rfl, rfl, rfl, rfl, rfl, rfl, rfl⟩
  · exact ⟨rfl, rfl, rfl, rfl, rfl, rfl, rfl⟩

theorem step_appointment_frame (c : Ctx) (ci : List (String × JValue))
    (c5 : Ctx) (h : step_appointment c ci = .ok c5) :
    c5.state = c.state ∧ c5.symptoms = c.symptoms ∧
    c5.severity = c.severity ∧ c5.department = c.department ∧
    c5.is_emergency = c.is_emergency ∧ c5.history = c.history ∧
    c5.booking_id = c.booking_id := by
  unfold step_appointment at h
  repeat' split at h
  all_goals first
    | (simp only [Except.ok.injEq] at h
       rw [← h]
       exact ⟨rfl, rfl, rfl, rfl, rfl, rfl, rfl⟩)
    | exact absurd h (by simp)

theorem step_state_frame (scan : List String) (llm : ValidatedResult) (c : Ctx) :
    ((step_state scan llm c).2).symptoms = c.symptoms ∧
    ((step_state scan llm c).2).department = c.department ∧
    ((step_state scan llm c).2).appointment = c.appointment ∧
    ((step_state scan llm c).2).history = c.history ∧
    ((step_state scan llm c).2).booking_id = c.booking_id := by
  unfold step_state
  repeat' split
  all_goals exact ⟨rfl, rfl, rfl, rfl, rfl⟩

theorem step_state_emergency_mono (scan : List String) (llm : ValidatedResult)
    (c : Ctx) (h : c.is_emergency = true) :
    ((step_state scan llm c).2).is_emergency = true := by
  unfold step_state
  repeat' split
  all_goals first
    | rfl
    | exact h

theorem handle_booking_frame (r : String) (c : Ctx) (db : Option String)
    (r2 : String) (c7 : Ctx) (n : Nat)
    (h : handle_booking r c db = .ok (r2, c7, n)) :
    c7.symptoms = c.symptoms ∧ c7.severity = c.severity ∧
    c7.department = c.department ∧ c7.is_emergency = c.is_emergency ∧
    c7.appointment = c.appointment ∧ c7.history = c.history := by
  unfold handle_booking at h
  repeat' split at h
  all_goals first
    | (simp only [Except.ok.injEq, Prod.mk.injEq] at h
       rw [← h.2.1]
       exact ⟨rfl, rfl, rfl, rfl, rfl, rfl⟩)
    | exact absurd h (by simp)

/-- Decomposition of a successful turn: either one of the two early
returns fired, or the full pipeline ran, with every intermediate step
recorded. -/
theorem process_ok_cases (msg : String) (c0 : Ctx) (llm : ValidatedResult)
    (db : Option String) (out : TurnOut)
    (h : process_message msg c0 llm db = .ok out) :
    ((pyStrip msg == "") = true ∧ out = ⟨.str promptMessage, c0, 0⟩) ∨
    ((pyStrip msg == "") = false ∧ MAX_CONVERSATION_TURNS ≤ userTurnCount c0 ∧
      out = ⟨.str limitMessage, c0, 0⟩) ∨
    ((pyStrip msg == "") = false ∧ userTurnCount c0 < MAX_CONVERSATION_TURNS ∧
      ∃ c2 c5 r2 c7 saves,
        mergeSymptomsStep (step_history (prepMessage msg) c0)
            llm.extracted_symptoms = .ok c2 ∧
        step_appointment
            (step_department (step_severity c2 llm.severity)
              llm.recommended_department) llm.collected_info = .ok c5 ∧
        (if (((step_state (check_emergency_keywords (prepMessage msg)) llm c5).2.state
              == "booking_confirmation") = true) then
           handle_booking
             (step_state (check_emergency_keywords (prepMessage msg)) llm c5).1
             (step_state (check_emergency_keywords (prepMessage msg)) llm c5).2 db
         else
           .ok ((step_state (check_emergency_keywords (prepMessage msg)) llm c5).1,
                (step_state (check_emergency_keywords (prepMessage msg)) llm c5).2,
                0)) = .ok (r2, c7, saves) ∧
        out = ⟨sanitize_response r2,
               { c7 with history :=
                  c7.history ++ [⟨"assistant", sanitize_response r2⟩] }, saves⟩) := by
  unfold process_message at h
  by_cases h1 : (pyStrip msg == "") = true
  · rw [if_pos h1] at h
    exact Or.inl ⟨h1, (Except.ok.inj h).symm⟩
  · rw [if_neg h1] at h
    by_cases h2 : MAX_CONVERSATION_TURNS ≤ userTurnCount c0
    · rw [if_pos h2] at h
      exact Or.inr (Or.inl ⟨by simpa using h1, h2, (Except.ok.inj h).symm⟩)
    · rw [if_neg h2] at h
      dsimp only [] at h
      refine Or.inr (Or.inr ⟨by simpa using h1, by omega, ?_⟩)
      rcases hm : mergeSymptomsStep (step_history (prepMessage msg) c0)
          llm.extracted_symptoms with e | c2
      · rw [hm] at h
        exact absurd h (by simp)
      · rw [hm] at h
        dsimp only [] at h
        rcases ha : step_appointment
            (step_department (step_severity c2 llm.severity)
              llm.recommended_department) llm.collected_info with e | c5
        · rw [ha] at h
          exact absurd h (by simp)
        · rw [ha] at h
          dsimp only [] at h
          rcases hb : (if (((step_state (check_emergency_keywords (prepMessage msg))
                  llm c5).2.state == "booking_confirmation") = true) then
               handle_booking
                 (step_state (check_emergency_keywords (prepMessage msg)) llm c5).1
                 (step_state (check_emergency_keywords (prepMessage msg)) llm c5).2 db
             else
               .ok ((step_state (check_emergency_keywords (prepMessage msg)) llm c5).1,
                    (step_state (check_emergency_keywords (prepMessage msg)) llm c5).2,
                    0)) with e | rcs
          · rw [hb] at h
            exact absurd h (by simp)
          · rcases rcs with ⟨r2, c7, saves⟩
            rw [hb] at h
            dsimp only [] at h
            exact ⟨c2, c5, r2, c7, saves, rfl, ha, hb, (Except.ok.inj h).symm⟩

/-! ## Construction lemmas: running the pipeline forward -/

/-- Assembling a successful full-pipeline run of process_message. -/
theorem process_run_eq (msg : String) (c0 : Ctx) (llm : ValidatedResult)
    (db : Option String) (h1 : (pyStrip msg == "") = false)
    (h2 : userTurnCount c0 < MAX_CONVERSATION_TURNS) (c2 c5 : Ctx)
    (hm : mergeSymptomsStep (step_history (prepMessage msg) c0)
        llm.extracted_symptoms = .ok c2)
    (ha : step_appointment
        (step_department (step_severity c2 llm.severity)
          llm.recommended_department) llm.collected_info = .ok c5)
    (r2 : String) (c7 : Ctx) (saves : Nat)
    (hb : (if (((step_state (check_emergency_keywords (prepMessage msg)) llm c5).2.state
              == "booking_confirmation") = true) then
         handle_booking
           (step_state (check_emergency_keywords (prepMessage msg)) llm c5).1
           (step_state (check_emergency_keywords (prepMessage msg)) llm c5).2 db
       else
         .ok ((step_state (check_emergency_keywords (prepMessage msg)) llm c5).1,
              (step_state (check_emergency_keywords (prepMessage msg)) llm c5).2,
              0)) = .ok (r2, c7, saves)) :
    process_message msg c0 llm db =
      .ok ⟨sanitize_response r2,
           { c7 with history :=
              c7.history ++ [⟨"assistant", sanitize_response r2⟩] }, saves⟩ := by
  unfold process_message
  rw [if_neg (by simp [h1]), if_neg (by omega)]
  dsimp only []
  rw [hm]
  dsimp only []
  rw [ha]
  dsimp only []
  rw [hb]

theorem mapSymptoms_str (ss : List String) :
    mapSymptoms (ss.map JValue.str) =
      .ok (ss.map (fun s => pyStrip (pyLower s))) := by
  induction ss with
  | nil => rfl
  | cons a t ih => simp [mapSymptoms, normSymptom, ih]

/-- The symptom merge never faults on string entries, and computes the
deduplicated union. -/
theorem mergeSymptomsStep_str (c : Ctx) (ss : List String) :
    mergeSymptomsStep c (ss.map JValue.str) =
      .ok (if ss.isEmpty then c
           else { c with symptoms :=
                    (c.symptoms ++ ss.map (fun s => pyStrip (pyLower s))).dedup }) := by
  unfold mergeSymptomsStep
  by_cases he : ss.isEmpty = true
  · rw [if_pos (by simp [List.isEmpty_iff] at he ⊢; simp [he]), if_pos he]
  · rw [if_neg (by simp [List.isEmpty_iff] at he ⊢; simp [he]), if_neg he,
        mapSymptoms_str]

theorem updField_optJ_ok (a : Appt) (key : String) (x : Option String) :
    ∃ a2, updField a key (some (optJ x)) = .ok a2 := by
  rcases x with _ | s
  · exact ⟨a, rfl⟩
  · rcases hi : incomingVal (some (optJ (some s))) with e | w
    · exfalso
      unfold incomingVal at hi
      dsimp only [optJ] at hi
      split at hi
      · split at hi
        · simp at hi
        · simp at hi
      · simp at hi
    · unfold updField
      rw [hi]
      rcases w with _ | s2
      · exact ⟨a, rfl⟩
      · exact ⟨_, rfl⟩

theorem step_appointment_lift (c : Ctx) (r : ResultT) :
    ∃ c5, step_appointment c (r.lift).collected_info = .ok c5 := by
  obtain ⟨a1, h1⟩ := updField_optJ_ok c.appointment "patient_name"
    r.collected_info.patient_name
  obtain ⟨a2, h2⟩ := updField_optJ_ok a1 "preferred_date"
    r.collected_info.preferred_date
  obtain ⟨a3, h3⟩ := updField_optJ_ok a2 "preferred_time"
    r.collected_info.preferred_time
  obtain ⟨a4, h4⟩ := updField_optJ_ok a3 "contact_number"
    r.collected_info.contact_number
  refine ⟨{ c with appointment := a4 }, ?_⟩
  unfold step_appointment
  rw [if_neg (by simp [ResultT.lift])]
  have g1 : dictGet (r.lift).collected_info "patient_name" =
      some (optJ r.collected_info.patient_name) := rfl
  have g2 : dictGet (r.lift).collected_info "preferred_date" =
      some (optJ r.collected_info.preferred_date) := rfl
  have g3 : dictGet (r.lift).collected_info "preferred_time" =
      some (optJ r.collected_info.preferred_time) := rfl
  have g4 : dictGet (r.lift).collected_info "contact_number" =
      some (optJ r.collected_info.contact_number) := rfl
  rw [g1, h1]
  dsimp only []
  rw [g2, h2]
  dsimp only []
  rw [g3, h3]
  dsimp only []
  rw [g4, h4]

/-! ## Characterizations of the state-decision step -/

theorem step_state_scan_hit (scan : List String) (llm : ValidatedResult)
    (c : Ctx) (h : scan.isEmpty = false) :
    ((step_state scan llm c).2 =
      { c with state := "emergency", is_emergency := true,
               severity := some "critical" }) ∧
    (llm.is_emergency.truthy = true → (step_state scan llm c).1 = llm.response) ∧
    (llm.is_emergency.truthy = false →
      (step_state scan llm c).1 =
        get_emergency_response scan
          { c with state := "emergency", is_emergency := true,
                   severity := some "critical" }) := by
  unfold step_state
  rw [if_pos (by simp [h])]
  by_cases hf : llm.is_emergency.truthy = true
  · rw [if_pos hf]
    exact ⟨rfl, fun _ => rfl, fun hcon => absurd hf (by simp [hcon])⟩
  · rw [if_neg hf]
    exact ⟨rfl, fun hcon => absurd hcon hf, fun _ => rfl⟩

theorem step_state_normal (scan : List String) (llm : ValidatedResult)
    (c : Ctx) (hscan : scan = []) (hflag : llm.is_emergency.truthy = false)
    (hcrit : llm.severity.eqStr "critical" = false)
    (hintent : detect_intent_switch c.state llm.intent = false)
    (hsugg : (llm.suggested_next_state.truthy &&
              jIsValid c.state llm.suggested_next_state) = false) :
    step_state scan llm c = (llm.response, c) := by
  unfold step_state
  subst hscan
  rw [if_neg (by simp), if_neg (by simp [hflag, hcrit]),
      if_neg (by simp [hintent]), if_neg (by simp [hsugg])]

theorem step_state_severity_keep (scan : List String) (llm : ValidatedResult)
    (c : Ctx) (hscan : scan = []) (hflag : llm.is_emergency.truthy = false)
    (hcrit : llm.severity.eqStr "critical" = false) :
    ((step_state scan llm c).2).severity = c.severity := by
  unfold step_state
  subst hscan
  rw [if_neg (by simp), if_neg (by simp [hflag, hcrit])]
  repeat' split
  all_goals rfl

/-- Fields preserved (or determined) from the start of the pipeline to the
context entering the state decision. -/
theorem pipeline_pre (msg : String) (c0 : Ctx) (llm : ValidatedResult)
    (c2 c5 : Ctx)
    (hm : mergeSymptomsStep (step_history (prepMessage msg) c0)
        llm.extracted_symptoms = .ok c2)
    (ha : step_appointment
        (step_department (step_severity c2 llm.severity)
          llm.recommended_department) llm.collected_info = .ok c5) :
    c5.state = c0.state ∧ c5.is_emergency = c0.is_emergency ∧
    c5.booking_id = c0.booking_id ∧ c5.symptoms = c2.symptoms ∧
    c5.severity = (step_severity c2 llm.severity).severity ∧
    c5.history = trimHistory (c0.history ++ [⟨"user", .str (prepMessage msg)⟩]) := by
  obtain ⟨a1, a2, a3, a4, a5, a6, a7⟩ := step_appointment_frame _ _ _ ha
  obtain ⟨d1, d2, d3, d4, d5, d6, d7⟩ :=
    step_department_frame (step_severity c2 llm.severity) llm.recommended_department
  obtain ⟨s1, s2, s3, s4, s5, s6, s7⟩ := step_severity_frame c2 llm.severity
  obtain ⟨m1, m2, m3, m4, m5, m6, m7⟩ := mergeSymptomsStep_frame _ _ _ hm
  obtain ⟨h1x, h2x, h3x, h4x, h5x, h6x, h7x⟩ :=
    step_history_frame (prepMessage msg) c0
  refine ⟨?_, ?_, ?_, ?_, ?_, ?_⟩
  · rw [a1, d1, s1, m1, h1x]
  · rw [a5, d4, s4, m4, h5x]
  · rw [a7, d7, s7, m7, h7x]
  · rw [a2, d2, s2]
  · rw [a3, d3]
  · rw [a6, d6, s6, m6]
    rfl

/-- Decomposition of the conditional booking step. -/
theorem booking_step_inv (rc : String × Ctx) (db : Option String) (r2 : String)
    (c7 : Ctx) (n : Nat)
    (hb : (if ((rc.2.state == "booking_confirmation") = true) then
             handle_booking rc.1 rc.2 db
           else .ok (rc.1, rc.2, 0)) = .ok (r2, c7, n)) :
    ((rc.2.state == "booking_confirmation") = true ∧
      handle_booking rc.1 rc.2 db = .ok (r2, c7, n)) ∨
    ((rc.2.state == "booking_confirmation") = false ∧
      r2 = rc.1 ∧ c7 = rc.2 ∧ n = 0) := by
  by_cases hcond : (rc.2.state == "booking_confirmation") = true
  · rw [if_pos hcond] at hb
    exact Or.inl ⟨hcond, hb⟩
  · rw [if_neg hcond] at hb
    simp only [Except.ok.injEq, Prod.mk.injEq] at hb
    exact Or.inr ⟨by simpa using hcond, hb.1.symm, hb.2.1.symm, hb.2.2.symm⟩

/-- Extract the successful outcome of a concrete run (used by witnesses). -/
def okOr (e : Except String TurnOut) (d : TurnOut) : TurnOut :=
  match e with
  | .ok o => o
  | .error _ => d

def turnDefault : TurnOut := ⟨.null, create_initial_context, 0⟩

def ctxOkOr (e : Except String Ctx) (d : Ctx) : Ctx :=
  match e with
  | .ok o => o
  | .error _ => d

/-! ## Claim C10 -/

/-- Claim C10: no path in process_turn ever clears the emergency flag — a
context entering with is_emergency true leaves with is_emergency true on
every successful turn; the only way to a false flag is the fresh initial
context. -/
theorem C10_emergency_flag_monotone :
    (∀ (msg : String) (c : Ctx) (llm : ValidatedResult) (db : Option String)
       (out : TurnOut), c.is_emergency = true →
       process_message msg c llm db = .ok out → out.ctx.is_emergency = true) ∧
    create_initial_context.is_emergency = false := by
  refine ⟨?_, rfl⟩
  intro msg c llm db out hc h
  rcases process_ok_cases msg c llm db out h with
    ⟨_, rfl⟩ | ⟨_, _, rfl⟩ | ⟨_, _, c2, c5, r2, c7, saves, hm, ha, hb, rfl⟩
  · exact hc
  · exact hc
  · show c7.is_emergency = true
    obtain ⟨_, pe, _⟩ := pipeline_pre msg c llm c2 c5 hm ha
    have hemo : ((step_state (check_emergency_keywords (prepMessage msg)) llm
        c5).2).is_emergency = true :=
      step_state_emergency_mono _ _ _ (by rw [pe]; exact hc)
    rcases booking_step_inv _ db r2 c7 saves hb with ⟨_, hbk⟩ | ⟨_, _, hc7, _⟩
    · obtain ⟨_, _, _, hbe, _, _⟩ := handle_booking_frame _ _ _ _ _ _ hbk
      rw [hbe]
      exact hemo
    · rw [hc7]
      exact hemo

/-- Claim C10 witness: a concrete emergency-episode turn keeps the flag. -/
theorem C10_witness :
    (process_message "thanks for the help" emergencyCtx trivialResult
        none).toOption.map (fun t => t.ctx.is_emergency) = some true := by
  have hrun : process_message "thanks for the help" emergencyCtx trivialResult
      none = .ok (okOr (process_message "thanks for the help" emergencyCtx
        trivialResult none) turnDefault) := by rfl
  have hflag := C10_emergency_flag_monotone.1 "thanks for the help" emergencyCtx
    trivialResult none _ (by rfl) hrun
  rw [hrun]
  exact congrArg some hflag

/-! ## Claim C5 -/

theorem step_severity_set (c : Ctx) (sv : JValue)
    (h : (sv.truthy && (sv.eqStr "critical" || sv.eqStr "moderate" ||
          sv.eqStr "mild")) = true) :
    (step_severity c sv).severity = some sv.getStr := by
  unfold step_severity
  rw [if_pos h]

/-- Claim C5 (amended): severity is last-writer-wins with no downgrade
guard — on a processed turn that triggers no new emergency, a Result
reporting moderate or mild severity overwrites the stored severity with
the reported value, even when the context entered the turn with severity
critical from an emergency override. -/
theorem C5_severity_last_writer_wins (msg : String) (c : Ctx)
    (llm : ValidatedResult) (db : Option String) (out : TurnOut) (sv : String)
    (hne : (pyStrip msg == "") = false)
    (hlim : userTurnCount c < MAX_CONVERSATION_TURNS)
    (hscan : check_emergency_keywords (prepMessage msg) = [])
    (hflag : llm.is_emergency.truthy = false)
    (hsev : llm.severity = .str sv)
    (hmm : sv = "moderate" ∨ sv = "mild")
    (h : process_message msg c llm db = .ok out) :
    out.ctx.severity = some sv := by
  rcases process_ok_cases msg c llm db out h with
    ⟨he, _⟩ | ⟨_, hge, _⟩ | ⟨_, _, c2, c5, r2, c7, saves, hm, ha, hb, rfl⟩
  · rw [he] at hne
    exact absurd hne (by simp)
  · omega
  · show c7.severity = some sv
    have hcrit : llm.severity.eqStr "critical" = false := by
      rw [hsev]
      rcases hmm with rfl | rfl <;> rfl
    have hkeep : ((step_state (check_emergency_keywords (prepMessage msg)) llm
        c5).2).severity = c5.severity :=
      step_state_severity_keep _ _ _ hscan hflag hcrit
    obtain ⟨_, _, _, _, psev, _⟩ := pipeline_pre msg c llm c2 c5 hm ha
    have hset : (step_severity c2 llm.severity).severity = some sv := by
      rw [step_severity_set c2 llm.severity
        (by rw [hsev]; rcases hmm with rfl | rfl <;> rfl)]
      rw [hsev]
      rfl
    rcases booking_step_inv _ db r2 c7 saves hb with ⟨_, hbk⟩ | ⟨_, _, hc7, _⟩
    · obtain ⟨_, hbs, _⟩ := handle_booking_frame _ _ _ _ _ _ hbk
      rw [hbs, hkeep, psev, hset]
    · rw [hc7, hkeep, psev, hset]

/-- Claim C5 counterexample: in an emergency episode (severity critical,
is_emergency true), a later non-emergency turn whose Result reports
moderate severity leaves the context with severity moderate — the claimed
no-downgrade protection does not exist. -/
theorem C5_counterexample :
    (process_message "feeling a bit better now" emergencyCtx moderateResult
        none).toOption.map (fun t => t.ctx.severity) = some (some "moderate") ∧
    (some "moderate" : Option String) ≠ some "critical" := by
  constructor
  · rfl
  · decide

/-- Claim C5 witness: the amended theorem applied at a concrete
emergency-episode turn with a mild Result. -/
theorem C5_witness :
    (process_message "it only aches a little" emergencyCtx
        { trivialResult with severity := .str "mild" } none).toOption.map
      (fun t => t.ctx.severity) = some (some "mild") := by
  have hrun : process_message "it only aches a little" emergencyCtx
      { trivialResult with severity := .str "mild" } none =
      .ok (okOr (process_message "it only aches a little" emergencyCtx
        { trivialResult with severity := .str "mild" } none) turnDefault) := by rfl
  have hsev := C5_severity_last_writer_wins "it only aches a little"
    emergencyCtx { trivialResult with severity := .str "mild" } none _ "mild"
    (by rfl) (by decide) (by rfl) (by rfl) rfl (Or.inr rfl) hrun
  rw [hrun]
  exact congrArg some hsev

/-! ## Claim C6 -/

/-- Claim C6: the symptom merge lowercases and trims each entry and unions
it into the existing set — membership of the merged set is exactly the
union, the merged list is duplicate-free (so merging an identical symptom
twice yields exactly one entry), and no successful turn ever removes a
previously stored symptom. -/
theorem C6_symptom_merge :
    (∀ (c : Ctx) (ss : List String) (c2 : Ctx),
       mergeSymptomsStep c (ss.map JValue.str) = .ok c2 →
       (∀ x, x ∈ c2.symptoms ↔
          (x ∈ c.symptoms ∨ x ∈ ss.map (fun s => pyStrip (pyLower s)))) ∧
       (ss ≠ [] → c2.symptoms.Nodup)) ∧
    (∀ (c : Ctx) (s : String) (c2 : Ctx),
       mergeSymptomsStep c [JValue.str s, JValue.str s] = .ok c2 →
       c2.symptoms.count (pyStrip (pyLower s)) = 1) ∧
    (∀ (msg : String) (c : Ctx) (llm : ValidatedResult) (db : Option String)
       (out : TurnOut), process_message msg c llm db = .ok out →
       ∀ x ∈ c.symptoms, x ∈ out.ctx.symptoms) := by
  have core : ∀ (c : Ctx) (ss : List String) (c2 : Ctx),
      mergeSymptomsStep c (ss.map JValue.str) = .ok c2 →
      (∀ x, x ∈ c2.symptoms ↔
         (x ∈ c.symptoms ∨ x ∈ ss.map (fun s => pyStrip (pyLower s)))) ∧
      (ss ≠ [] → c2.symptoms.Nodup) := by
    intro c ss c2 h
    rw [mergeSymptomsStep_str] at h
    replace h := (Except.ok.inj h).symm
    by_cases he : ss.isEmpty = true
    · rw [if_pos he] at h
      have hss : ss = [] := by simpa [List.isEmpty_iff] using he
      subst hss
      subst h
      exact ⟨fun x => by simp, fun hne => absurd rfl hne⟩
    · rw [if_neg he] at h
      subst h
      refine ⟨fun x => ?_, fun _ => List.nodup_dedup _⟩
      simp [List.mem_dedup, List.mem_append]
  refine ⟨core, ?_, ?_⟩
  · intro c s c2 h
    have h2 := core c [s, s] c2 (by simpa using h)
    have hmem : pyStrip (pyLower s) ∈ c2.symptoms := by
      rw [(h2.1 _)]
      exact Or.inr (by simp)
    have hnd : c2.symptoms.Nodup := h2.2 (by simp)
    exact List.count_eq_one_of_mem hnd hmem
  · intro msg c llm db out h x hx
    rcases process_ok_cases msg c llm db out h with
      ⟨_, rfl⟩ | ⟨_, _, rfl⟩ | ⟨_, _, c2, c5, r2, c7, saves, hm, ha, hb, rfl⟩
    · exact hx
    · exact hx
    · show x ∈ c7.symptoms
      obtain ⟨_, _, _, psym, _⟩ := pipeline_pre msg c llm c2 c5 hm ha
      have hx2 : x ∈ c2.symptoms := by
        have hh := mergeSymptomsStep_mono _ _ _ hm x
        exact hh hx
      have h5 : x ∈ c5.symptoms := by
        rw [psym]
        exact hx2
      have hst := (step_state_frame (check_emergency_keywords (prepMessage msg))
        llm c5).1
      rcases booking_step_inv _ db r2 c7 saves hb with ⟨_, hbk⟩ | ⟨_, _, hc7, _⟩
      · obtain ⟨hbs, _⟩ := handle_booking_frame _ _ _ _ _ _ hbk
        rw [hbs, hst]
        exact h5
      · rw [hc7, hst]
        exact h5

/-- Claim C6 witness: merging the same symptom twice at a concrete input
yields exactly one entry. -/
theorem C6_witness :
    (ctxOkOr (mergeSymptomsStep create_initial_context
        [JValue.str "  Fever ", JValue.str "  Fever "])
      create_initial_context).symptoms.count "fever" = 1 := by
  have hrun : mergeSymptomsStep create_initial_context
      [JValue.str "  Fever ", JValue.str "  Fever "] =
      .ok (ctxOkOr (mergeSymptomsStep create_initial_context
        [JValue.str "  Fever ", JValue.str "  Fever "])
        create_initial_context) := by rfl
  have hcount := C6_symptom_merge.2.1 create_initial_context "  Fever " _ hrun
  have hnorm : pyStrip (pyLower "  Fever ") = "fever" := by rfl
  rw [hnorm] at hcount
  exact hcount

/-! ## Claim C7 -/

/-- suppliesValue is the claim-side reading of "the Result's collected_info
supplies a non-empty value that is not a null sentinel" for one field: the
value to be stored, or none when the incoming value is absent, falsy, or a
null/none sentinel (an empty collected_info skips the whole merge). -/
def suppliesValue (ci : List (String × JValue)) (k : String) : Option String :=
  if ci.isEmpty then none
  else
    match dictGet ci k with
    | some (.str s) =>
      if (s == "") = true then none
      else if (pyLower s == "null" || pyLower s == "none" || pyLower s == "") then
        none
      else some s
    | _ => none

theorem updField_char (a : Appt) (key : String) (v : Option JValue) (a2 : Appt)
    (h : updField a key v = .ok a2) :
    (incomingVal v = .ok none ∧ a2 = a) ∨
    (∃ s, incomingVal v = .ok (some s) ∧ a2 = setApptField a key s) := by
  unfold updField at h
  rcases hi : incomingVal v with e | w
  · rw [hi] at h
    exact absurd h (by simp)
  · rw [hi] at h
    rcases w with _ | s
    · exact Or.inl ⟨rfl, (Except.ok.inj h).symm⟩
    · exact Or.inr ⟨s, rfl, (Except.ok.inj h).symm⟩

theorem incomingVal_ok_supplies (ci : List (String × JValue)) (k : String)
    (he : ci.isEmpty = false) (w : Option String)
    (h : incomingVal (dictGet ci k) = .ok w) : suppliesValue ci k = w := by
  unfold suppliesValue
  rw [if_neg (by simp [he])]
  rcases hg : dictGet ci k with _ | jv
  · rw [hg] at h
    exact Except.ok.inj
      (show Except.ok (ε := String) (none : Option String) = .ok w from h)
  · rw [hg] at h
    replace h : (if jv.truthy = true then
        (match jv with
         | .str s =>
           if (pyLower s == "null" || pyLower s == "none" ||
               pyLower s == "") = true then
             Except.ok (none : Option String)
           else Except.ok (some s)
         | _ => Except.error "AttributeError: lower")
      else Except.ok none) = Except.ok w := h
    by_cases hT : jv.truthy = true
    · rw [if_pos hT] at h
      rcases jv with _ | b | n | tok | s | xs | fs
      on_goal 5 =>
        replace h : (if (pyLower s == "null" || pyLower s == "none" ||
              pyLower s == "") = true then
            Except.ok (ε := String) (none : Option String)
          else Except.ok (some s)) = Except.ok w := h
        have hne : (s == "") = false := by simpa [JValue.truthy] using hT
        show (if (s == "") = true then none
              else if (pyLower s == "null" || pyLower s == "none" ||
                  pyLower s == "") = true then none
              else some s) = w
        rw [if_neg (by simp [hne])]
        by_cases hsent : (pyLower s == "null" || pyLower s == "none" ||
            pyLower s == "") = true
        · rw [if_pos hsent] at h ⊢
          exact Except.ok.inj h
        · rw [if_neg hsent] at h ⊢
          exact Except.ok.inj h
      all_goals
        exact absurd (show Except.error (α := Option String)
          "AttributeError: lower" = .ok w from h) (by simp)
    · rw [if_neg hT] at h
      replace h := Except.ok.inj h
      rcases jv with _ | b | n | tok | s | xs | fs
      on_goal 5 =>
        have hse : (s == "") = true := by
          by_contra hcon
          exact hT (by simpa [JValue.truthy] using hcon)
        show (if (s == "") = true then none
              else if (pyLower s == "null" || pyLower s == "none" ||
                  pyLower s == "") = true then none
              else some s) = w
        rw [if_pos hse]
        exact h
      all_goals exact h

theorem step_appointment_fields (c : Ctx) (ci : List (String × JValue))
    (c5 : Ctx) (h : step_appointment c ci = .ok c5) :
    (apptFieldVal c5.appointment "patient_name" =
      (match suppliesValue ci "patient_name" with
       | some v => some v
       | none => apptFieldVal c.appointment "patient_name")) ∧
    (apptFieldVal c5.appointment "preferred_date" =
      (match suppliesValue ci "preferred_date" with
       | some v => some v
       | none => apptFieldVal c.appointment "preferred_date")) ∧
    (apptFieldVal c5.appointment "preferred_time" =
      (match suppliesValue ci "preferred_time" with
       | some v => some v
       | none => apptFieldVal c.appointment "preferred_time")) ∧
    (apptFieldVal c5.appointment "contact_number" =
      (match suppliesValue ci "contact_number" with
       | some v => some v
       | none => apptFieldVal c.appointment "contact_number")) := by
  by_cases he : ci.isEmpty = true
  · unfold step_appointment at h
    rw [if_pos he] at h
    replace h := Except.ok.inj h
    subst h
    have hs : ∀ k, suppliesValue ci k = none := by
      intro k
      unfold suppliesValue
      rw [if_pos he]
    simp [hs]
  · have hef : ci.isEmpty = false := by simpa using he
    unfold step_appointment at h
    rw [if_neg he] at h
    rcases h1 : updField c.appointment "patient_name"
        (dictGet ci "patient_name") with e | a1
    · rw [h1] at h
      exact absurd h (by simp)
    · rw [h1] at h
      dsimp only [] at h
      rcases h2 : updField a1 "preferred_date"
          (dictGet ci "preferred_date") with e | a2
      · rw [h2] at h
        exact absurd h (by simp)
      · rw [h2] at h
        dsimp only [] at h
        rcases h3 : updField a2 "preferred_time"
            (dictGet ci "preferred_time") with e | a3
        · rw [h3] at h
          exact absurd h (by simp)
        · rw [h3] at h
          dsimp only [] at h
          rcases h4 : updField a3 "contact_number"
              (dictGet ci "contact_number") with e | a4
          · rw [h4] at h
            exact absurd h (by simp)
          · rw [h4] at h
            dsimp only [] at h
            replace h := Except.ok.inj h
            subst h
            rcases updField_char _ _ _ _ h1 with ⟨hi1, rfl⟩ | ⟨s1, hi1, rfl⟩ <;>
            rcases updField_char _ _ _ _ h2 with ⟨hi2, rfl⟩ | ⟨s2, hi2, rfl⟩ <;>
            rcases updField_char _ _ _ _ h3 with ⟨hi3, rfl⟩ | ⟨s3, hi3, rfl⟩ <;>
            rcases updField_char _ _ _ _ h4 with ⟨hi4, rfl⟩ | ⟨s4, hi4, rfl⟩ <;>
            · have hv1 := incomingVal_ok_supplies ci "patient_name" hef _ hi1
              have hv2 := incomingVal_ok_supplies ci "preferred_date" hef _ hi2
              have hv3 := incomingVal_ok_supplies ci "preferred_time" hef _ hi3
              have hv4 := incomingVal_ok_supplies ci "contact_number" hef _ hi4
              refine ⟨?_, ?_, ?_, ?_⟩ <;>
                simp [hv1, hv2, hv3, hv4, apptFieldVal, setApptField]

/-- Claim C7: for each of the four appointment fields, a successful turn
overwrites the stored value only when collected_info supplies a non-empty,
non-sentinel string; an absent, falsy, empty or null/none-sentinel
incoming value leaves the previously collected value unchanged (and when a
value is supplied on a fully processed turn, it is stored). -/
theorem C7_appointment_field_merge :
    ∀ (msg : String) (c : Ctx) (llm : ValidatedResult) (db : Option String)
      (out : TurnOut), process_message msg c llm db = .ok out →
      ∀ k ∈ REQUIRED_FIELDS,
        (suppliesValue llm.collected_info k = none →
          apptFieldVal out.ctx.appointment k = apptFieldVal c.appointment k) ∧
        (∀ v, suppliesValue llm.collected_info k = some v →
          (pyStrip msg == "") = false →
          userTurnCount c < MAX_CONVERSATION_TURNS →
          apptFieldVal out.ctx.appointment k = some v) := by
  intro msg c llm db out h k hk
  rcases process_ok_cases msg c llm db out h with
    ⟨he, rfl⟩ | ⟨_, hge, rfl⟩ | ⟨_, _, c2, c5, r2, c7, saves, hm, ha, hb, rfl⟩
  · exact ⟨fun _ => rfl, fun v _ hne _ => absurd he (by simp [hne])⟩
  · exact ⟨fun _ => rfl, fun v _ _ hlim => by omega⟩
  · obtain ⟨hf1, hf2, hf3, hf4⟩ := step_appointment_fields _ _ _ ha
    have hbase : (step_department (step_severity c2 llm.severity)
        llm.recommended_department).appointment = c.appointment := by
      obtain ⟨_, _, _, _, d5, _, _⟩ :=
        step_department_frame (step_severity c2 llm.severity)
          llm.recommended_department
      obtain ⟨_, _, _, _, s5, _, _⟩ := step_severity_frame c2 llm.severity
      obtain ⟨_, _, _, _, m5, _, _⟩ := mergeSymptomsStep_frame _ _ _ hm
      rw [d5, s5, m5]
      exact (step_history_frame (prepMessage msg) c).2.2.2.2.2.1
    rw [hbase] at hf1 hf2 hf3 hf4
    have happt7 : c7.appointment = c5.appointment := by
      have hst := (step_state_frame (check_emergency_keywords (prepMessage msg))
        llm c5).2.2.1
      rcases booking_step_inv _ db r2 c7 saves hb with ⟨_, hbk⟩ | ⟨_, _, hc7, _⟩
      · obtain ⟨_, _, _, _, hba, _⟩ := handle_booking_frame _ _ _ _ _ _ hbk
        rw [hba, hst]
      · rw [hc7, hst]
    have hfield : apptFieldVal c5.appointment k =
        (match suppliesValue llm.collected_info k with
         | some v => some v
         | none => apptFieldVal c.appointment k) := by
      have hk4 : k = "patient_name" ∨ k = "preferred_date" ∨
          k = "preferred_time" ∨ k = "contact_number" := by
        simpa [REQUIRED_FIELDS] using hk
      rcases hk4 with rfl | rfl | rfl | rfl
      · exact hf1
      · exact hf2
      · exact hf3
      · exact hf4
    constructor
    · intro hnone
      show apptFieldVal c7.appointment k = apptFieldVal c.appointment k
      rw [happt7, hfield, hnone]
    · intro v hsome _ _
      show apptFieldVal c7.appointment k = some v
      rw [happt7, hfield, hsome]

/-- Claim C7 witness: a concrete turn supplying a patient name stores it,
while the untouched date field keeps its previous value. -/
theorem C7_witness :
    (process_message "My name is John Doe" create_initial_context
        { trivialResult with collected_info :=
            [("patient_name", JValue.str "John Doe")] }
        none).toOption.map (fun t => t.ctx.appointment.patient_name) =
      some (some "John Doe") := by
  have hrun : process_message "My name is John Doe" create_initial_context
      { trivialResult with collected_info :=
          [("patient_name", JValue.str "John Doe")] } none =
      .ok (okOr (process_message "My name is John Doe" create_initial_context
        { trivialResult with collected_info :=
            [("patient_name", JValue.str "John Doe")] } none) turnDefault) := by
    rfl
  have hfld := (C7_appointment_field_merge "My name is John Doe"
    create_initial_context
    { trivialResult with collected_info :=
        [("patient_name", JValue.str "John Doe")] } none _ hrun
    "patient_name" (by decide)).2 "John Doe" (by rfl) (by rfl) (by decide)
  rw [hrun]
  exact congrArg some hfld

/-! ## Claim C8 -/

/-- Claim C8 (amended): emergency is reachable from every state, including
unrecognized ones; validity is exactly membership in the table entry (or
the emergency override), with an unrecognized current state having an
empty legal set; and on a normal-flow turn an invalid suggested next state
is silently ignored — the returned state equals the entering state,
provided the entering state is not booking_confirmation (from
booking_confirmation the subsequent booking step itself moves the state). -/
theorem C8_transition_validity :
    (∀ x, is_valid_transition x "emergency" = true) ∧
    (∀ cur next, is_valid_transition cur next = true ↔
       (next = "emergency" ∨ next ∈ transitionsFor cur)) ∧
    (∀ cur, cur ∉ STATE_NAMES → transitionsFor cur = []) ∧
    (∀ (msg : String) (c : Ctx) (llm : ValidatedResult) (db : Option String)
       (out : TurnOut),
       check_emergency_keywords (prepMessage msg) = [] →
       llm.is_emergency.truthy = false →
       llm.severity.eqStr "critical" = false →
       detect_intent_switch c.state llm.intent = false →
       (llm.suggested_next_state.truthy &&
        jIsValid c.state llm.suggested_next_state) = false →
       c.state ≠ "booking_confirmation" →
       process_message msg c llm db = .ok out →
       out.ctx.state = c.state) := by
  refine ⟨?_, ?_, ?_, ?_⟩
  · intro x
    simp [is_valid_transition]
  · intro cur next
    simp [is_valid_transition]
  · intro cur h
    simp only [STATE_NAMES, List.mem_cons, List.not_mem_nil, or_false,
      not_or] at h
    obtain ⟨h1, h2, h3, h4, h5, h6, h7, h8, h9⟩ := h
    have e1 : ("greeting" == cur) = false := by
      simp only [beq_eq_false_iff_ne]
      exact Ne.symm h1
    have e2 : ("symptom_collection" == cur) = false := by
      simp only [beq_eq_false_iff_ne]
      exact Ne.symm h2
    have e3 : ("severity_assessment" == cur) = false := by
      simp only [beq_eq_false_iff_ne]
      exact Ne.symm h3
    have e4 : ("emergency" == cur) = false := by
      simp only [beq_eq_false_iff_ne]
      exact Ne.symm h4
    have e5 : ("department_recommendation" == cur) = false := by
      simp only [beq_eq_false_iff_ne]
      exact Ne.symm h5
    have e6 : ("appointment_offer" == cur) = false := by
      simp only [beq_eq_false_iff_ne]
      exact Ne.symm h6
    have e7 : ("collecting_details" == cur) = false := by
      simp only [beq_eq_false_iff_ne]
      exact Ne.symm h7
    have e8 : ("booking_confirmation" == cur) = false := by
      simp only [beq_eq_false_iff_ne]
      exact Ne.symm h8
    have e9 : ("completed" == cur) = false := by
      simp only [beq_eq_false_iff_ne]
      exact Ne.symm h9
    simp [transitionsFor, VALID_TRANSITIONS, lookupStr, e1, e2, e3, e4, e5,
      e6, e7, e8, e9]
  · intro msg c llm db out hscan hflag hcrit hintent hsugg hbook h
    rcases process_ok_cases msg c llm db out h with
      ⟨_, rfl⟩ | ⟨_, _, rfl⟩ | ⟨_, _, c2, c5, r2, c7, saves, hm, ha, hb, rfl⟩
    · rfl
    · rfl
    · show c7.state = c.state
      obtain ⟨pst, _⟩ := pipeline_pre msg c llm c2 c5 hm ha
      have hnorm : step_state (check_emergency_keywords (prepMessage msg)) llm
          c5 = (llm.response, c5) :=
        step_state_normal _ _ _ hscan hflag hcrit (by rw [pst]; exact hintent)
          (by rw [pst]; exact hsugg)
      rcases booking_step_inv _ db r2 c7 saves hb with ⟨hcond, _⟩ | ⟨_, _, hc7, _⟩
      · rw [hnorm] at hcond
        simp only [beq_iff_eq] at hcond
        rw [pst] at hcond
        exact absurd hcond hbook
      · rw [hc7, hnorm, pst]

/-- Claim C8 counterexample: at booking_confirmation with an invalid
suggested state (greeting), the returned state is collecting_details, not
the retained current state — the booking step still moves the state even
though the invalid suggestion was ignored. -/
theorem C8_counterexample :
    is_valid_transition "booking_confirmation" "greeting" = false ∧
    (process_message "ok then"
        { create_initial_context with state := "booking_confirmation" }
        { trivialResult with suggested_next_state := .str "greeting" }
        none).toOption.map (fun t => t.ctx.state) = some "collecting_details" ∧
    "collecting_details" ≠ "booking_confirmation" := by
  refine ⟨rfl, rfl, ?_⟩
  decide

/-- Claim C8 witness: a concrete normal-flow turn with an invalid
suggestion keeps the greeting state. -/
theorem C8_witness :
    (process_message "hello there" create_initial_context
        { trivialResult with suggested_next_state := .str "completed" }
        none).toOption.map (fun t => t.ctx.state) = some "greeting" := by
  have hrun : process_message "hello there" create_initial_context
      { trivialResult with suggested_next_state := .str "completed" } none =
      .ok (okOr (process_message "hello there" create_initial_context
        { trivialResult with suggested_next_state := .str "completed" } none)
        turnDefault) := by rfl
  have hst := C8_transition_validity.2.2.2 "hello there" create_initial_context
    { trivialResult with suggested_next_state := .str "completed" } none _
    (by rfl) (by rfl) (by rfl) (by rfl) (by rfl) (by decide) hrun
  rw [hrun]
  exact congrArg some hst

/-! ## Claim C9 -/

theorem string_data_append (a b : String) : (a ++ b).data = a.data ++ b.data := by
  rcases a with ⟨la⟩
  rcases b with ⟨lb⟩
  rfl

theorem strContains_append_mid (pre : String) (needle : String) (post : String) :
    strContains (pre ++ (needle ++ post)) needle = true := by
  apply strContains_of_data _ _ pre.data post.data
  rw [string_data_append, string_data_append]

/-- Claim C9 (amended): with any required appointment field missing, the
booking step forces collecting_details, returns the response unmodified
and attempts no save.  With all fields present, exactly one save is
attempted: a non-null, non-empty identifier yields state completed with
the identifier stored and its last eight characters shown in the
confirmation, provided the context severity is set (a null severity makes
the confirmation formatting raise instead — see C3); a null save result
still yields state completed with a manual-confirmation notice and no
stored identifier. -/
theorem C9_booking_step :
    (∀ (r : String) (c : Ctx) (db : Option String),
       missingFields c.appointment ≠ [] →
       handle_booking r c db =
         .ok (r, { c with state := "collecting_details" }, 0)) ∧
    (∀ (r : String) (c : Ctx) (sv : String) (bid : String),
       missingFields c.appointment = [] → c.severity = some sv → bid ≠ "" →
       ∃ resp c7, handle_booking r c (some bid) = .ok (resp, c7, 1) ∧
         c7.state = "completed" ∧ c7.booking_id = some bid ∧
         strContains resp (pyLast bid 8) = true) ∧
    (∀ (r : String) (c : Ctx),
       missingFields c.appointment = [] →
       ∃ resp c7, handle_booking r c none = .ok (resp, c7, 1) ∧
         c7.state = "completed" ∧ c7.booking_id = c.booking_id ∧
         strContains resp
           "Please call the hospital directly to confirm your appointment."
           = true) := by
  refine ⟨?_, ?_, ?_⟩
  · intro r c db hmiss
    unfold handle_booking
    rw [if_pos (by simp [hmiss])]
  · intro r c sv bid hmiss hsev hbid
    unfold handle_booking
    rw [if_neg (by simp [hmiss])]
    dsimp only []
    rw [show (bid == "") = false from by simp [hbid]]
    simp only [Bool.false_eq_true, if_false]
    rw [hsev]
    refine ⟨_, _, rfl, rfl, rfl, ?_⟩
    unfold bookingSuccessMsg
    exact strContains_append_mid _ _ _
  · intro r c hmiss
    unfold handle_booking
    rw [if_neg (by simp [hmiss])]
    dsimp only []
    refine ⟨_, _, rfl, rfl, rfl, ?_⟩
    unfold bookingFailMsg strContains
    rw [string_data_append]
    apply hasSub_append_left
    rw [string_data_append]
    apply hasSub_append_left
    rw [string_data_append]
    apply hasSub_append_left
    rw [string_data_append]
    exact hasSub_self_append _ _

/-- A booking-confirmation context with every field collected but severity
never assessed. -/
def confirmCtxNoSeverity : Ctx :=
  { bookingCtxNoSeverity with state := "booking_confirmation" }

/-- A booking-confirmation context with every field collected and a
moderate severity. -/
def confirmCtxModerate : Ctx :=
  { confirmCtxNoSeverity with severity := some "moderate" }

/-- Claim C9 counterexample: all four fields present and the persistence
oracle returns a non-null identifier, yet the booking step raises
(AttributeError on None.title()) instead of yielding state completed with
the identifier stored — because the context severity is null. -/
theorem C9_counterexample :
    (handle_booking "Shall I confirm?" confirmCtxNoSeverity
        (some "67a1b2c3d4e5f678")).toOption = none ∧
    missingFields confirmCtxNoSeverity.appointment = [] := by
  constructor
  · rfl
  · rfl

/-- Claim C9 witness: the amended theorem applied at a concrete completed
booking. -/
theorem C9_witness :
    (handle_booking "Shall I confirm?" confirmCtxModerate
        (some "67a1b2c3d4e5f678")).toOption.map
      (fun t => (t.2.1.state, t.2.1.booking_id, t.2.2,
                 strContains t.1 "d4e5f678")) =
      some ("completed", some "67a1b2c3d4e5f678", 1, true) := by
  obtain ⟨resp, c7, heq, hst, hbid, hcont⟩ :=
    C9_booking_step.2.1 "Shall I confirm?" confirmCtxModerate "moderate"
      "67a1b2c3d4e5f678" (by rfl) (by rfl) (by decide)
  rw [heq]
  have hlast : pyLast "67a1b2c3d4e5f678" 8 = "d4e5f678" := by rfl
  rw [hlast] at hcont
  show some (c7.state, c7.booking_id, (1 : Nat),
    strContains resp "d4e5f678") = _
  rw [hst, hbid, hcont]

/-! ## Claim C3 -/

/-- Claim C3 is contradicted by the code: a fully well-typed turn — all
four appointment fields collected, the service suggesting the legal
transition collecting_details to booking_confirmation, the persistence
oracle returning an identifier — raises AttributeError because the
context severity is null and the confirmation formatting calls .title()
on it.  The turn does not terminate with a textual response. -/
theorem C3_crash_on_null_severity :
    process_message "Yes, please book it now" bookingCtxNoSeverity
        confirmResult (some "67a1b2c3d4e5f678") =
      .error "AttributeError: title" ∧
    (process_message "Yes, please book it now" bookingCtxNoSeverity
        confirmResult (some "67a1b2c3d4e5f678")).toOption = none := by
  constructor
  · rfl
  · rfl

/-! ## Claim C4 -/

theorem trimHistory_length (h : List HistMsg) :
    (trimHistory h).length ≤ MAX_HISTORY := by
  unfold trimHistory
  split
  · rw [List.length_drop]
    omega
  · omega

theorem trimHistory_suffix (h : List HistMsg) : trimHistory h <:+ h := by
  unfold trimHistory
  split
  · exact List.drop_suffix _ _
  · exact List.suffix_refl _

/-- One successful turn keeps the history length within the window plus
the appended assistant reply. -/
theorem process_history_bound (msg : String) (c : Ctx) (llm : ValidatedResult)
    (db : Option String) (out : TurnOut)
    (h : process_message msg c llm db = .ok out)
    (hc : c.history.length ≤ MAX_HISTORY + 1) :
    out.ctx.history.length ≤ MAX_HISTORY + 1 := by
  rcases process_ok_cases msg c llm db out h with
    ⟨_, rfl⟩ | ⟨_, _, rfl⟩ | ⟨_, _, c2, c5, r2, c7, saves, hm, ha, hb, rfl⟩
  · exact hc
  · exact hc
  · show (c7.history ++ [(⟨"assistant", sanitize_response r2⟩ : HistMsg)]).length ≤
      MAX_HISTORY + 1
    rw [List.length_append]
    have h7 : c7.history.length ≤ MAX_HISTORY := by
      obtain ⟨_, _, _, _, _, phist⟩ := pipeline_pre msg c llm c2 c5 hm ha
      have hst := (step_state_frame (check_emergency_keywords (prepMessage msg))
        llm c5).2.2.2.1
      have hlen5 : c5.history.length ≤ MAX_HISTORY := by
        rw [phist]
        exact trimHistory_length _
      rcases booking_step_inv _ db r2 c7 saves hb with ⟨_, hbk⟩ | ⟨_, _, hc7, _⟩
      · obtain ⟨_, _, _, _, _, hbh⟩ := handle_booking_frame _ _ _ _ _ _ hbk
        rw [hbh, hst]
        exact hlen5
      · rw [hc7, hst]
        exact hlen5
    simpa using h7

theorem runTurns_bound (turns : List (String × ValidatedResult × Option String)) :
    ∀ (c cf : Ctx), c.history.length ≤ MAX_HISTORY + 1 →
      runTurns turns c = .ok cf → cf.history.length ≤ MAX_HISTORY + 1 := by
  induction turns with
  | nil =>
    intro c cf hc h
    rw [← Except.ok.inj h]
    exact hc
  | cons t rest ih =>
    intro c cf hc h
    rcases t with ⟨m, r, db⟩
    unfold runTurns at h
    rcases hp : process_message m c r db with e | out
    · rw [hp] at h
      exact absurd h (by simp)
    · rw [hp] at h
      exact ih out.ctx cf (process_history_bound m c r db out hp hc) h

/-- Claim C4 (amended): from the initial context the history length never
exceeds the fixed window plus one (25) at the point where process_turn
returns — the window of 24 is enforced when the user message is appended,
after which the assistant reply is appended without a second trim — and
when trimming occurs the oldest entries are dropped first (the trimmed
history is a suffix of the untrimmed one, of length at most 24). -/
theorem C4_history_window :
    (∀ (turns : List (String × ValidatedResult × Option String)) (cf : Ctx),
       runTurns turns create_initial_context = .ok cf →
       cf.history.length ≤ MAX_HISTORY + 1) ∧
    (∀ h : List HistMsg,
       trimHistory h <:+ h ∧ (trimHistory h).length ≤ MAX_HISTORY) := by
  constructor
  · intro turns cf h
    exact runTurns_bound turns create_initial_context cf (by simp
      [create_initial_context]) h
  · intro h
    exact ⟨trimHistory_suffix h, trimHistory_length h⟩

/-- Claim C4 counterexample: after thirteen turns from the initial
context, the returned history holds 25 entries — more than the fixed
window of 24 — because the assistant reply is appended after the trim. -/
theorem C4_counterexample :
    (runTurns (List.replicate 13 ("hello", trivialResult, none))
        create_initial_context).toOption.map (fun c => c.history.length) =
      some 25 ∧ ¬(25 ≤ MAX_HISTORY) := by
  constructor
  · rfl
  · decide

/-- Claim C4 witness: the amended bound applied to a concrete
thirteen-turn run. -/
theorem C4_witness :
    (ctxOkOr (runTurns (List.replicate 13 ("hello", trivialResult, none))
        create_initial_context) create_initial_context).history.length ≤
      MAX_HISTORY + 1 := by
  have hrun : runTurns (List.replicate 13 ("hello", trivialResult, none))
      create_initial_context =
      .ok (ctxOkOr (runTurns (List.replicate 13 ("hello", trivialResult, none))
        create_initial_context) create_initial_context) := by rfl
  exact C4_history_window.1 _ _ hrun

/-! ## Claim C2 -/

theorem step_state_response_cases (scan : List String) (llm : ValidatedResult)
    (c : Ctx) :
    (step_state scan llm c).1 = llm.response ∨
    ∃ cE, (step_state scan llm c).1 = get_emergency_response scan cE := by
  unfold step_state
  repeat' split
  all_goals first
    | exact Or.inl rfl
    | exact Or.inr ⟨_, rfl⟩

theorem handle_booking_response_cases (r : String) (c : Ctx)
    (db : Option String) (r2 : String) (c7 : Ctx) (n : Nat)
    (h : handle_booking r c db = .ok (r2, c7, n)) :
    r2 = r ∨ (∃ bid a cx sv, r2 = bookingSuccessMsg bid a cx sv) ∨
    (∃ a cx, r2 = bookingFailMsg a cx) := by
  unfold handle_booking at h
  repeat' split at h
  all_goals first
    | (simp only [Except.ok.injEq, Prod.mk.injEq] at h
       exact Or.inl h.1.symm)
    | (simp only [Except.ok.injEq, Prod.mk.injEq] at h
       exact Or.inr (Or.inl ⟨_, _, _, _, h.1.symm⟩))
    | (simp only [Except.ok.injEq, Prod.mk.injEq] at h
       exact Or.inr (Or.inr ⟨_, _, h.1.symm⟩))
    | exact absurd h (by simp)

/-- Claim C2: the structured encoding never reaches the user.  First: for
every parsed payload (covering every raw generation-service output, since
every parse tier feeds some parsed dict into validation and every failure
path yields the fallback), the validated result carries a string response
that does not parse as a JSON object.  Second: any successful turn whose
validated response does not parse as a JSON object returns a response text
that does not parse as a JSON object — the final sanitization pass and
every synthesized replacement preserve the guarantee. -/
theorem C2_no_payload_leak :
    (∀ parsed : List (String × JValue),
       ∃ s, dictGet (generate_validate parsed) "response" = some (.str s) ∧
         isPayload s = false) ∧
    (∀ (msg : String) (c : Ctx) (llm : ValidatedResult) (db : Option String)
       (out : TurnOut), process_message msg c llm db = .ok out →
       isPayload llm.response = false →
       ∃ s, out.response = .str s ∧ isPayload s = false) := by
  refine ⟨generate_validate_response_safe, ?_⟩
  intro msg c llm db out h hsafe
  rcases process_ok_cases msg c llm db out h with
    ⟨_, rfl⟩ | ⟨_, _, rfl⟩ | ⟨_, _, c2, c5, r2, c7, saves, hm, ha, hb, rfl⟩
  · exact ⟨promptMessage, rfl, isPayload_false_of_headCheck _ (by rfl)⟩
  · exact ⟨limitMessage, rfl, isPayload_false_of_headCheck _ (by rfl)⟩
  · have hr2 : isPayload r2 = false := by
      rcases booking_step_inv _ db r2 c7 saves hb with ⟨_, hbk⟩ | ⟨_, hr, _, _⟩
      · rcases handle_booking_response_cases _ _ _ _ _ _ hbk with
          hre | ⟨bid, a, cx, sv, rfl⟩ | ⟨a, cx, rfl⟩
        · rw [hre]
          rcases step_state_response_cases
              (check_emergency_keywords (prepMessage msg)) llm c5 with
            hll | ⟨cE, hE⟩
          · rw [hll]
            exact hsafe
          · rw [hE]
            exact isPayload_false_of_headCheck _ (by rfl)
        · exact isPayload_false_of_headCheck _ (by rfl)
        · exact isPayload_false_of_headCheck _ (by rfl)
      · rw [hr]
        rcases step_state_response_cases
            (check_emergency_keywords (prepMessage msg)) llm c5 with
          hll | ⟨cE, hE⟩
        · rw [hll]
          exact hsafe
        · rw [hE]
          exact isPayload_false_of_headCheck _ (by rfl)
    refine ⟨r2, ?_, hr2⟩
    show sanitize_response r2 = .str r2
    exact sanitize_of_notPayload r2 hr2

/-- Claim C2 witness: the validator and a concrete turn at explicit
inputs. -/
theorem C2_witness :
    (okOr (process_message "hello friend" create_initial_context trivialResult
        none) turnDefault).response = .str "Okay." ∧
    isPayload "Okay." = false := by
  have hrun : process_message "hello friend" create_initial_context
      trivialResult none =
      .ok (okOr (process_message "hello friend" create_initial_context
        trivialResult none) turnDefault) := by rfl
  obtain ⟨s, hs, hp⟩ := C2_no_payload_leak.2 "hello friend"
    create_initial_context trivialResult none _ hrun (by rfl)
  have hresp : (okOr (process_message "hello friend" create_initial_context
      trivialResult none) turnDefault).response = .str "Okay." := by rfl
  exact ⟨hresp, by rfl⟩

/-! ## Claim C1 -/

theorem get_emergency_response_congr (k : List String) (c c' : Ctx)
    (h : c.symptoms = c'.symptoms) :
    get_emergency_response k c = get_emergency_response k c' := by
  unfold get_emergency_response
  rw [h]

/-- Claim C1 (amended): for every non-empty message below the turn limit
whose prepared text — stripped, then truncated to the first 2000
characters — contains an emergency phrase, a turn with any
generation-service Result (as typed by the schema) returns a context in
state emergency with is_emergency true and severity critical; and when the
Result did not itself flag the emergency, the returned text is the
synthesized emergency-escalation message. -/
theorem C1_emergency_override (msg : String) (c : Ctx) (r : ResultT)
    (db : Option String)
    (h1 : (pyStrip msg == "") = false)
    (h2 : userTurnCount c < MAX_CONVERSATION_TURNS)
    (h3 : check_emergency_keywords (prepMessage msg) ≠ []) :
    ∃ out, process_message msg c r.lift db = .ok out ∧
      out.ctx.state = "emergency" ∧ out.ctx.is_emergency = true ∧
      out.ctx.severity = some "critical" ∧
      (r.is_emergency = false →
        out.response = .str (get_emergency_response
          (check_emergency_keywords (prepMessage msg)) out.ctx)) := by
  obtain ⟨c2, hm⟩ : ∃ c2, mergeSymptomsStep (step_history (prepMessage msg) c)
      (r.lift).extracted_symptoms = .ok c2 :=
    ⟨_, mergeSymptomsStep_str _ r.extracted_symptoms⟩
  obtain ⟨c5, ha⟩ :=
    step_appointment_lift
      (step_department (step_severity c2 (r.lift).severity)
        (r.lift).recommended_department) r
  have hscanE : (check_emergency_keywords (prepMessage msg)).isEmpty = false := by
    rcases hck : check_emergency_keywords (prepMessage msg) with _ | ⟨k, t⟩
    · exact absurd hck h3
    · rfl
  obtain ⟨hcE, hflagT, hflagF⟩ :=
    step_state_scan_hit (check_emergency_keywords (prepMessage msg)) r.lift c5
      hscanE
  have hcond : (((step_state (check_emergency_keywords (prepMessage msg)) r.lift
      c5).2).state == "booking_confirmation") = false := by
    rw [hcE]
    rfl
  have hb : (if (((step_state (check_emergency_keywords (prepMessage msg))
          r.lift c5).2.state == "booking_confirmation") = true) then
       handle_booking
         (step_state (check_emergency_keywords (prepMessage msg)) r.lift c5).1
         (step_state (check_emergency_keywords (prepMessage msg)) r.lift c5).2 db
     else
       .ok ((step_state (check_emergency_keywords (prepMessage msg)) r.lift c5).1,
            (step_state (check_emergency_keywords (prepMessage msg)) r.lift c5).2,
            0)) = .ok ((step_state (check_emergency_keywords (prepMessage msg))
              r.lift c5).1,
            (step_state (check_emergency_keywords (prepMessage msg)) r.lift c5).2,
            0) := by
    rw [if_neg (by simp [hcond])]
  have hrun := process_run_eq msg c r.lift db h1 h2 c2 c5 hm ha _ _ _ hb
  refine ⟨_, hrun, ?_, ?_, ?_, ?_⟩
  · show ((step_state (check_emergency_keywords (prepMessage msg)) r.lift
      c5).2).state = "emergency"
    rw [hcE]
  · show ((step_state (check_emergency_keywords (prepMessage msg)) r.lift
      c5).2).is_emergency = true
    rw [hcE]
  · show ((step_state (check_emergency_keywords (prepMessage msg)) r.lift
      c5).2).severity = some "critical"
    rw [hcE]
  · intro hfe
    have hT : (r.lift).is_emergency.truthy = false := by
      show (JValue.bool r.is_emergency).truthy = false
      rw [hfe]
      rfl
    have hresp := hflagF hT
    show sanitize_response ((step_state (check_emergency_keywords
      (prepMessage msg)) r.lift c5).1) = _
    rw [hresp]
    rw [sanitize_of_headCheck _ (by rfl)]
    congr 1
    apply get_emergency_response_congr
    show _ = ((step_state (check_emergency_keywords (prepMessage msg)) r.lift
      c5).2).symptoms
    rw [hcE]

/-- A schema-typed Result that extracts nothing and does not flag an
emergency. -/
def rT0 : ResultT :=
  { response := "I see, tell me more.", extracted_symptoms := [],
    severity := none, is_emergency := false, recommended_department := none,
    intent := "other", needs_clarification := false,
    collected_info := { patient_name := none, preferred_date := none,
                        preferred_time := none, contact_number := none },
    suggested_next_state := none }

/-- Claim C1 witness: a concrete short message containing a listed phrase,
with a Result that does not flag the emergency. -/
theorem C1_witness :
    (process_message "I think I am having a heart attack"
        create_initial_context rT0.lift none).toOption.map
      (fun t => (t.ctx.state, t.ctx.is_emergency, t.ctx.severity)) =
      some ("emergency", true, some "critical") := by
  obtain ⟨out, heq, hst, hem, hsev, _⟩ :=
    C1_emergency_override "I think I am having a heart attack"
      create_initial_context rT0 none (by rfl) (by decide) (by decide)
  rw [heq]
  show some (out.ctx.state, out.ctx.is_emergency, out.ctx.severity) = _
  rw [hst, hem, hsev]

/-! ## Claim C1, counterexample machinery: the truncation gap -/

theorem longEmergencyMsg_data :
    longEmergencyMsg.data = List.replicate 1996 'x' ++ "heart attack".data := by
  show ((⟨List.replicate 1996 'x'⟩ : String) ++ "heart attack").data = _
  rw [string_data_append]

theorem reverse_replicate_self (n : Nat) (x : Char) :
    (List.replicate n x).reverse = List.replicate n x := by
  induction n with
  | zero => rfl
  | succ m ih =>
    rw [List.replicate_succ, List.reverse_cons, ih, ← List.replicate_succ',
        ← List.replicate_succ]

theorem dropWhile_cons_false (p : Char → Bool) (c : Char) (t : List Char)
    (h : p c = false) : (c :: t).dropWhile p = c :: t := by
  simp [List.dropWhile, h]

theorem dropWhile_replicate_append (p : Char → Bool) (x : Char) (n : Nat)
    (t : List Char) (hx : p x = false) (ht : t.dropWhile p = t) :
    (List.replicate n x ++ t).dropWhile p = List.replicate n x ++ t := by
  induction n with
  | zero => simpa using ht
  | succ m ih =>
    rw [List.replicate_succ, List.cons_append,
        dropWhile_cons_false p x _ hx, ← List.cons_append,
        ← List.replicate_succ]

theorem pyStrip_longEmergencyMsg : pyStrip longEmergencyMsg = longEmergencyMsg := by
  unfold pyStrip
  rw [longEmergencyMsg_data]
  rw [dropWhile_replicate_append isSpaceChar 'x' 1996 "heart attack".data
      (by decide) (by decide)]
  rw [List.reverse_append, reverse_replicate_self]
  rw [show ("heart attack".data).reverse = 'k' :: "catta traeh".data from by decide]
  rw [List.cons_append]
  rw [dropWhile_cons_false isSpaceChar 'k' _ (by decide)]
  rw [List.reverse_cons, List.reverse_append, reverse_replicate_self]
  rw [List.append_assoc]
  rw [show ("catta traeh".data.reverse ++ ['k']) = "heart attack".data from by decide]
  rw [← longEmergencyMsg_data]

theorem pyLen_longEmergencyMsg : pyLen longEmergencyMsg = 2008 := by
  unfold pyLen
  rw [longEmergencyMsg_data, List.length_append, List.length_replicate]
  rfl

theorem prepMessage_longEmergencyMsg :
    prepMessage longEmergencyMsg =
      ⟨List.replicate 1996 'x' ++ truncScanTail.data⟩ := by
  show (if MAX_MSG_CHARS < pyLen (pyStrip longEmergencyMsg) then
          pySliceTo (pyStrip longEmergencyMsg) MAX_MSG_CHARS ++ "... (truncated)"
        else pyStrip longEmergencyMsg) = _
  rw [pyStrip_longEmergencyMsg]
  rw [if_pos (by rw [pyLen_longEmergencyMsg]; decide)]
  unfold pySliceTo
  rw [longEmergencyMsg_data]
  rw [List.take_append_eq_append_take]
  rw [List.take_of_length_le (by rw [List.length_replicate]; decide)]
  rw [List.length_replicate]
  rw [show ("heart attack".data.take (MAX_MSG_CHARS - 1996)) = "hear".data from by decide]
  rw [show ((⟨List.replicate 1996 'x' ++ "hear".data⟩ : String) ++ "... (truncated)")
      = (⟨(List.replicate 1996 'x' ++ "hear".data) ++ "... (truncated)".data⟩ : String)
      from rfl]
  rw [List.append_assoc]
  rw [show ("hear".data ++ "... (truncated)".data) = truncScanTail.data from by decide]

theorem hasSub_miss (kw : List Char) (n : Nat) (h : kwMissesTrunc kw = true) :
    hasSub kw (List.replicate n 'x' ++ truncScanTail.data) = false := by
  cases kw with
  | nil => exact absurd h (by simp [kwMissesTrunc])
  | cons c t =>
    simp only [kwMissesTrunc, Bool.and_eq_true, Bool.not_eq_true'] at h
    rw [hasSub_skip_replicate c t 'x' n truncScanTail.data h.1]
    exact h.2

theorem all_kw_miss :
    ALL_EMERGENCY_KEYWORDS.all (fun kw => kwMissesTrunc kw.data) = true := by
  decide

theorem filter_nil_of_none (p : String → Bool) (l : List String)
    (h : ∀ a ∈ l, p a = false) : l.filter p = [] := by
  induction l with
  | nil => rfl
  | cons a t ih =>
    rw [List.filter_cons, if_neg (by simp [h a (List.mem_cons_self a t)])]
    exact ih (fun b hb => h b (List.mem_cons_of_mem a hb))

theorem pyLower_truncLong :
    pyLower ⟨List.replicate 1996 'x' ++ truncScanTail.data⟩ =
      ⟨List.replicate 1996 'x' ++ truncScanTail.data⟩ := by
  unfold pyLower
  rw [show (⟨List.replicate 1996 'x' ++ truncScanTail.data⟩ : String).data
      = List.replicate 1996 'x' ++ truncScanTail.data from rfl]
  rw [List.map_append, List.map_replicate]
  rw [show Char.toLower 'x' = 'x' from rfl]
  rw [show truncScanTail.data.map Char.toLower = truncScanTail.data from by decide]

theorem check_longEmergencyMsg :
    check_emergency_keywords (prepMessage longEmergencyMsg) = [] := by
  rw [prepMessage_longEmergencyMsg]
  show ALL_EMERGENCY_KEYWORDS.filter
      (fun kw => strContains
        (pyLower ⟨List.replicate 1996 'x' ++ truncScanTail.data⟩) kw) = []
  apply filter_nil_of_none
  intro kw hkw
  rw [pyLower_truncLong]
  show hasSub kw.data (List.replicate 1996 'x' ++ truncScanTail.data) = false
  exact hasSub_miss kw.data 1996 (List.all_eq_true.mp all_kw_miss kw hkw)

theorem lower_contains_long :
    strContains (pyLower longEmergencyMsg) "heart attack" = true := by
  apply strContains_of_data _ _ (List.replicate 1996 'x') []
  show (longEmergencyMsg.data.map Char.toLower) = _
  rw [longEmergencyMsg_data, List.map_append, List.map_replicate,
      List.append_nil]
  rw [show Char.toLower 'x' = 'x' from rfl]
  rw [show ("heart attack".data.map Char.toLower) = "heart attack".data from by decide]

theorem stripLong_ne_empty : (pyStrip longEmergencyMsg == "") = false := by
  rw [pyStrip_longEmergencyMsg, beq_eq_false_iff_ne]
  intro hcon
  have hdata : List.replicate 1996 'x' ++ "heart attack".data = ([] : List Char) := by
    rw [← longEmergencyMsg_data, hcon]
  exact absurd (List.append_eq_nil.mp hdata).2 (by decide)

/-- Claim C1 counterexample: the claim as stated fails when the emergency
phrase lies beyond the 2000-character truncation bound — the lowercased
raw message contains the listed phrase "heart attack", the message is
non-empty and the context is below the turn limit, yet the turn returns
state greeting, not emergency. -/
theorem C1_counterexample :
    strContains (pyLower longEmergencyMsg) "heart attack" = true ∧
    (process_message longEmergencyMsg create_initial_context trivialResult
        none).toOption.map (fun t => t.ctx.state) = some "greeting" := by
  refine ⟨lower_contains_long, ?_⟩
  have h2 : userTurnCount create_initial_context < MAX_CONVERSATION_TURNS := by
    decide
  have hm : mergeSymptomsStep
      (step_history (prepMessage longEmergencyMsg) create_initial_context)
      trivialResult.extracted_symptoms =
      .ok (step_history (prepMessage longEmergencyMsg) create_initial_context) := rfl
  have ha : step_appointment
      (step_department (step_severity
          (step_history (prepMessage longEmergencyMsg) create_initial_context)
          trivialResult.severity)
        trivialResult.recommended_department) trivialResult.collected_info =
      .ok (step_department (step_severity
          (step_history (prepMessage longEmergencyMsg) create_initial_context)
          trivialResult.severity)
        trivialResult.recommended_department) := rfl
  have hnorm : step_state (check_emergency_keywords (prepMessage longEmergencyMsg))
      trivialResult
      (step_department (step_severity
          (step_history (prepMessage longEmergencyMsg) create_initial_context)
          trivialResult.severity)
        trivialResult.recommended_department) =
      (trivialResult.response,
       step_department (step_severity
          (step_history (prepMessage longEmergencyMsg) create_initial_context)
          trivialResult.severity)
        trivialResult.recommended_department) := by
    rw [check_longEmergencyMsg]
    exact step_state_normal [] trivialResult _ rfl rfl rfl rfl rfl
  have hcond : (((step_state (check_emergency_keywords (prepMessage longEmergencyMsg))
      trivialResult
      (step_department (step_severity
          (step_history (prepMessage longEmergencyMsg) create_initial_context)
          trivialResult.severity)
        trivialResult.recommended_department)).2).state
      == "booking_confirmation") = false := by
    rw [hnorm]
    rfl
  have hb : (if (((step_state (check_emergency_keywords (prepMessage longEmergencyMsg))
          trivialResult
          (step_department (step_severity
              (step_history (prepMessage longEmergencyMsg) create_initial_context)
              trivialResult.severity)
            trivialResult.recommended_department)).2.state
          == "booking_confirmation") = true) then
       handle_booking
         (step_state (check_emergency_keywords (prepMessage longEmergencyMsg))
          trivialResult
          (step_department (step_severity
              (step_history (prepMessage longEmergencyMsg) create_initial_context)
              trivialResult.severity)
            trivialResult.recommended_department)).1
         (step_state (check_emergency_keywords (prepMessage longEmergencyMsg))
          trivialResult
          (step_department (step_severity
              (step_history (prepMessage longEmergencyMsg) create_initial_context)
              trivialResult.severity)
            trivialResult.recommended_department)).2 none
     else
       .ok ((step_state (check_emergency_keywords (prepMessage longEmergencyMsg))
          trivialResult
          (step_department (step_severity
              (step_history (prepMessage longEmergencyMsg) create_initial_context)
              trivialResult.severity)
            trivialResult.recommended_department)).1,
            (step_state (check_emergency_keywords (prepMessage longEmergencyMsg))
          trivialResult
          (step_department (step_severity
              (step_history (prepMessage longEmergencyMsg) create_initial_context)
              trivialResult.severity)
            trivialResult.recommended_department)).2,
            0)) =
      .ok ((step_state (check_emergency_keywords (prepMessage longEmergencyMsg))
          trivialResult
          (step_department (step_severity
              (step_history (prepMessage longEmergencyMsg) create_initial_context)
              trivialResult.severity)
            trivialResult.recommended_department)).1,
            (step_state (check_emergency_keywords (prepMessage longEmergencyMsg))
          trivialResult
          (step_department (step_severity
              (step_history (prepMessage longEmergencyMsg) create_initial_context)
              trivialResult.severity)
            trivialResult.recommended_department)).2,
            0) := by
    rw [if_neg (by simp [hcond])]
  have hrun := process_run_eq longEmergencyMsg create_initial_context
    trivialResult none stripLong_ne_empty h2 _ _ hm ha _ _ _ hb
  rw [hrun, hnorm]
  rfl
